import Mathlib

/-!
Shallow embedding of the escao-api escrow backend (Express + MySQL request
handlers) and proofs about its escrow lifecycle state machine.

The relational store is modelled as lists of rows; `SELECT ... WHERE id = ?`
followed by `rows[0]` becomes `List.find?`, `UPDATE ... WHERE id = ?` becomes
a `List.map` that rewrites every row with the matching id, and `INSERT`
appends a row.  Each route handler becomes a pure function from the database
and the request data to the HTTP response paired with the new database.
Fresh UUIDs generated inside a handler are passed in as parameters.
-/

namespace Escao

/-- HTTP response: status code plus the top-level message or error string. -/
structure Resp where
  status : Nat
  msg : String
deriving DecidableEq

/-- Row of the `users` table (the fields the lifecycle logic reads). -/
structure UserRow where
  id : String
  role : String
  kyc_status : String
deriving DecidableEq

/-- Row of the `escrow_transactions` table. -/
structure Escrow where
  id : String
  buyer_id : String
  seller_id : String
  amount : Nat
  status : String
deriving DecidableEq

/-- Row of the `payouts` table. -/
structure Payout where
  id : String
  escrow_id : String
  status : String
deriving DecidableEq

/-- Row of the `disputes` table. -/
structure Dispute where
  id : String
  escrow_id : String
  opened_by : String
  status : String
deriving DecidableEq

/-- Row of the `payment_intents` table; `pg_reference` may be NULL. -/
structure PaymentIntent where
  id : String
  escrow_id : String
  pg_reference : Option String
  status : String
deriving DecidableEq

/-- Row of the `webhook_events` table; the payload is abstracted to the
`pg_ref` field the dedup query extracts from it. -/
structure WebhookEvent where
  id : String
  event_type : String
  pg_ref : Option String
  processed : Bool
deriving DecidableEq

/-- Row of the `audit_logs` table (metadata abstracted away). -/
structure AuditLog where
  id : String
  actor_id : String
  action : String
  entity_id : String
deriving DecidableEq

/-- The shared relational schema. -/
structure DB where
  users : List UserRow
  escrows : List Escrow
  payouts : List Payout
  disputes : List Dispute
  intents : List PaymentIntent
  events : List WebhookEvent
  audits : List AuditLog
deriving DecidableEq

/-- The authenticated JWT identity attached to a request by `authenticateJWT`. -/
structure Auth where
  id : String
  role : String
deriving DecidableEq

/-- First row of `SELECT * FROM escrow_transactions WHERE id = ?`. -/
def findEscrowIn (l : List Escrow) (eid : String) : Option Escrow :=
  l.find? (fun e => e.id == eid)

def findEscrow (db : DB) (eid : String) : Option Escrow :=
  findEscrowIn db.escrows eid

/-- First row of `SELECT * FROM users WHERE id = ?`. -/
def findUser (db : DB) (uid : String) : Option UserRow :=
  db.users.find? (fun u => u.id == uid)

/-- First row of `SELECT * FROM disputes WHERE id = ?`. -/
def findDisputeIn (l : List Dispute) (did : String) : Option Dispute :=
  l.find? (fun d => d.id == did)

def findDispute (db : DB) (did : String) : Option Dispute :=
  findDisputeIn db.disputes did

/-- `UPDATE escrow_transactions SET status = ? WHERE id = ?` on the row list. -/
def setStatusIn (l : List Escrow) (tid s : String) : List Escrow :=
  l.map (fun e => if e.id = tid then { e with status := s } else e)

def setEscrowStatus (db : DB) (tid s : String) : DB :=
  { db with escrows := setStatusIn db.escrows tid s }

/-- `UPDATE disputes SET status = ? WHERE id = ?` on the row list. -/
def setDisputeStatusIn (l : List Dispute) (tid s : String) : List Dispute :=
  l.map (fun d => if d.id = tid then { d with status := s } else d)

def setDisputeStatus (db : DB) (tid s : String) : DB :=
  { db with disputes := setDisputeStatusIn db.disputes tid s }

/-- `UPDATE payouts SET status = ? WHERE id = ?`. -/
def setPayoutStatus (db : DB) (pid s : String) : DB :=
  { db with payouts := db.payouts.map (fun p => if p.id = pid then { p with status := s } else p) }

/-- `INSERT INTO audit_logs ...`. -/
def addAudit (db : DB) (aid actor action entityId : String) : DB :=
  { db with audits := db.audits ++ [⟨aid, actor, action, entityId⟩] }

/-- Status of the first escrow row with the given id, if any. -/
def statusOf (db : DB) (eid : String) : Option String :=
  (findEscrowIn db.escrows eid).map (fun e => e.status)

/-- POST /api/escrow (src/routes/escrow.ts): create an escrow with
buyer_id/seller_id taken verbatim from the request body. -/
def createEscrow (db : DB) (user : Auth) (buyer_id seller_id : String) (amount : Nat)
    (escrowId auditId : String) : Resp × DB :=
  if buyer_id = "" ∨ seller_id = "" ∨ amount = 0 then
    ({ status := 400, msg := "buyer_id, seller_id, and amount are required" }, db)
  else if user.role ≠ "buyer" ∧ user.role ≠ "seller" then
    ({ status := 403, msg := "Only buyers or sellers can create escrow" }, db)
  else
    let db1 : DB :=
      { db with escrows := db.escrows ++ [⟨escrowId, buyer_id, seller_id, amount, "created"⟩] }
    let db2 := addAudit db1 auditId user.id "create" escrowId
    ({ status := 201, msg := "Escrow created successfully" }, db2)

/-- POST /api/escrow/:id/fund (src/routes/escrow.ts): insert a paid payment
intent and move the escrow from created to funded. -/
def fundEscrow (db : DB) (user : Auth) (escrowId method pg_reference : String)
    (paymentId auditId : String) : Resp × DB :=
  if method = "" ∨ pg_reference = "" then
    ({ status := 400, msg := "method and pg_reference are required" }, db)
  else
    match findEscrow db escrowId with
    | none => ({ status := 404, msg := "Escrow not found" }, db)
    | some escrow =>
      if escrow.status ≠ "created" then
        ({ status := 400, msg := "Escrow is not in created state" }, db)
      else
        let db1 : DB :=
          { db with intents := db.intents ++ [⟨paymentId, escrowId, some pg_reference, "paid"⟩] }
        let db2 := setEscrowStatus db1 escrowId "funded"
        let db3 := addAudit db2 auditId user.id "fund" escrowId
        ({ status := 200, msg := "Escrow funded successfully" }, db3)

/-- POST /api/escrow/:id/ship, basic variant (routes file with the role check
only): any caller with role seller may ship any funded escrow. -/
def shipEscrowBasic (db : DB) (user : Auth) (escrowId auditId : String) : Resp × DB :=
  if user.role ≠ "seller" then
    ({ status := 403, msg := "Only sellers can mark escrow as shipped" }, db)
  else
    match findEscrow db escrowId with
    | none => ({ status := 404, msg := "Escrow not found" }, db)
    | some escrow =>
      if escrow.status ≠ "funded" then
        ({ status := 400, msg := "Escrow must be in funded state before shipping" }, db)
      else
        let db1 := setEscrowStatus db escrowId "shipped"
        let db2 := addAudit db1 auditId user.id "ship" escrowId
        ({ status := 200, msg := "Escrow marked as shipped" }, db2)

/-- POST /api/escrow/:id/ship, hardened variant: role seller, caller KYC
verified, caller is the escrow row seller, escrow funded. -/
def shipEscrowKyc (db : DB) (user : Auth) (escrowId auditId : String) : Resp × DB :=
  if user.role ≠ "seller" then
    ({ status := 403, msg := "Only sellers can mark escrow as shipped" }, db)
  else
    match findUser db user.id with
    | none => ({ status := 403, msg := "Seller is not KYC verified" }, db)
    | some seller =>
      if seller.kyc_status ≠ "verified" then
        ({ status := 403, msg := "Seller is not KYC verified" }, db)
      else
        match findEscrow db escrowId with
        | none => ({ status := 404, msg := "Escrow not found" }, db)
        | some escrow =>
          if escrow.seller_id ≠ user.id then
            ({ status := 403, msg := "You are not the seller of this escrow" }, db)
          else if escrow.status ≠ "funded" then
            ({ status := 400, msg := "Escrow must be in funded state before shipping" }, db)
          else
            let db1 := setEscrowStatus db escrowId "shipped"
            let db2 := addAudit db1 auditId user.id "ship" escrowId
            ({ status := 200, msg := "Escrow marked as shipped" }, db2)

/-- POST /api/escrow/:id/confirm, basic variant: role buyer, escrow shipped. -/
def confirmEscrowBasic (db : DB) (user : Auth) (escrowId auditId : String) : Resp × DB :=
  if user.role ≠ "buyer" then
    ({ status := 403, msg := "Only buyers can confirm receipt" }, db)
  else
    match findEscrow db escrowId with
    | none => ({ status := 404, msg := "Escrow not found" }, db)
    | some escrow =>
      if escrow.status ≠ "shipped" then
        ({ status := 400, msg := "Escrow must be in shipped state before confirming" }, db)
      else
        let db1 := setEscrowStatus db escrowId "confirmed"
        let db2 := addAudit db1 auditId user.id "confirm" escrowId
        ({ status := 200, msg := "Escrow confirmed successfully" }, db2)

/-- POST /api/escrow/:id/confirm, ownership variant: additionally requires the
caller to be the escrow row buyer. -/
def confirmEscrowOwner (db : DB) (user : Auth) (escrowId auditId : String) : Resp × DB :=
  if user.role ≠ "buyer" then
    ({ status := 403, msg := "Only buyers can confirm receipt" }, db)
  else
    match findEscrow db escrowId with
    | none => ({ status := 404, msg := "Escrow not found" }, db)
    | some escrow =>
      if escrow.buyer_id ≠ user.id then
        ({ status := 403, msg := "You are not the buyer of this escrow" }, db)
      else if escrow.status ≠ "shipped" then
        ({ status := 400, msg := "Escrow must be in shipped state before confirming" }, db)
      else
        let db1 := setEscrowStatus db escrowId "confirmed"
        let db2 := addAudit db1 auditId user.id "confirm" escrowId
        ({ status := 200, msg := "Escrow confirmed successfully" }, db2)

/-- POST /api/escrow/:id/release, legacy admin variant (no KYC check): role
admin, escrow confirmed; sets released and inserts a pending payout. -/
def releaseEscrowAdminLegacy (db : DB) (user : Auth) (escrowId payoutId auditId : String) :
    Resp × DB :=
  if user.role ≠ "admin" then
    ({ status := 403, msg := "Only admins can release escrow funds" }, db)
  else
    match findEscrow db escrowId with
    | none => ({ status := 404, msg := "Escrow not found" }, db)
    | some escrow =>
      if escrow.status ≠ "confirmed" then
        ({ status := 400, msg := "Escrow must be confirmed before releasing funds" }, db)
      else
        let db1 := setEscrowStatus db escrowId "released"
        let db2 : DB := { db1 with payouts := db1.payouts ++ [⟨payoutId, escrowId, "pending"⟩] }
        let db3 := addAudit db2 auditId user.id "release" escrowId
        ({ status := 200, msg := "Escrow released successfully, payout initiated" }, db3)

/-- POST /api/escrow/:id/release, admin variant with a seller-KYC check
between the status check and the update. -/
def releaseEscrowAdminKyc (db : DB) (user : Auth) (escrowId payoutId auditId : String) :
    Resp × DB :=
  if user.role ≠ "admin" then
    ({ status := 403, msg := "Only admins can release escrow funds" }, db)
  else
    match findEscrow db escrowId with
    | none => ({ status := 404, msg := "Escrow not found" }, db)
    | some escrow =>
      if escrow.status ≠ "confirmed" then
        ({ status := 400, msg := "Escrow must be confirmed before releasing funds" }, db)
      else
        match findUser db escrow.seller_id with
        | none => ({ status := 403, msg := "Seller is not KYC verified" }, db)
        | some seller =>
          if seller.kyc_status ≠ "verified" then
            ({ status := 403, msg := "Seller is not KYC verified" }, db)
          else
            let db1 := setEscrowStatus db escrowId "released"
            let db2 : DB := { db1 with payouts := db1.payouts ++ [⟨payoutId, escrowId, "pending"⟩] }
            let db3 := addAudit db2 auditId user.id "release" escrowId
            ({ status := 200, msg := "Escrow released successfully, payout initiated" }, db3)

/-- POST /api/escrow/:id/release, buyer variant: the requireKYCVerified
middleware checks the CALLER kyc_status (the buyer), then the handler checks
that the caller is the escrow buyer and the escrow is confirmed.  The seller
kyc_status is never consulted on this path. -/
def releaseEscrowBuyer (db : DB) (user : Auth) (escrowId payoutId : String) : Resp × DB :=
  match findUser db user.id with
  | none => ({ status := 404, msg := "User not found" }, db)
  | some caller =>
    if caller.kyc_status ≠ "verified" then
      ({ status := 403, msg := "KYC verification required to perform this action" }, db)
    else
      match findEscrow db escrowId with
      | none => ({ status := 404, msg := "Escrow not found" }, db)
      | some escrow =>
        if user.id ≠ escrow.buyer_id then
          ({ status := 403, msg := "Only buyer can release funds" }, db)
        else if escrow.status ≠ "confirmed" then
          ({ status := 400, msg := "Escrow must be confirmed before release" }, db)
        else
          let db1 := setEscrowStatus db escrowId "released"
          let db2 : DB := { db1 with payouts := db1.payouts ++ [⟨payoutId, escrowId, "pending"⟩] }
          ({ status := 200, msg := "Funds released and payout initiated" }, db2)

/-- POST /api/admin/escrows/:id/release: requireAdmin, idempotent on already
released, 400 unless confirmed, seller KYC gate, then release + payout. -/
def adminReleaseEscrow (db : DB) (user : Auth) (escrowId payoutId auditId : String) :
    Resp × DB :=
  if user.role ≠ "admin" then
    ({ status := 403, msg := "Admin access required" }, db)
  else
    match findEscrow db escrowId with
    | none => ({ status := 404, msg := "Escrow not found" }, db)
    | some escrow =>
      if escrow.status = "released" then
        ({ status := 200, msg := "Escrow already released" }, db)
      else if escrow.status ≠ "confirmed" then
        ({ status := 400, msg := "Escrow must be confirmed before release" }, db)
      else
        match findUser db escrow.seller_id with
        | none => ({ status := 403, msg := "Seller is not KYC verified" }, db)
        | some seller =>
          if seller.kyc_status ≠ "verified" then
            ({ status := 403, msg := "Seller is not KYC verified" }, db)
          else
            let db1 := setEscrowStatus db escrowId "released"
            let db2 : DB := { db1 with payouts := db1.payouts ++ [⟨payoutId, escrowId, "pending"⟩] }
            let db3 := addAudit db2 auditId user.id "release" escrowId
            ({ status := 200, msg := "Escrow released by admin, payout initiated" }, db3)

/-- Latest payout for an escrow: inserts append, so ORDER BY created_at DESC
LIMIT 1 is the last matching row. -/
def latestPayoutFor (db : DB) (escrowId : String) : Option Payout :=
  (db.payouts.filter (fun p => p.escrow_id == escrowId)).getLast?

/-- POST /api/admin/escrows/:id/complete: requireAdmin, idempotent on already
completed, 400 unless released; marks completed and advances a pending latest
payout to sent. -/
def adminCompleteEscrow (db : DB) (user : Auth) (escrowId payoutAuditId auditId : String) :
    Resp × DB :=
  if user.role ≠ "admin" then
    ({ status := 403, msg := "Admin access required" }, db)
  else
    match findEscrow db escrowId with
    | none => ({ status := 404, msg := "Escrow not found" }, db)
    | some escrow =>
      if escrow.status = "completed" then
        ({ status := 200, msg := "Escrow already completed" }, db)
      else if escrow.status ≠ "released" then
        ({ status := 400, msg := "Escrow must be released before completion" }, db)
      else
        let db1 := setEscrowStatus db escrowId "completed"
        let db2 :=
          match latestPayoutFor db1 escrowId with
          | some p =>
            if p.status = "pending" then
              addAudit (setPayoutStatus db1 p.id "sent") payoutAuditId user.id "payout_status" p.id
            else db1
          | none => db1
        let db3 := addAudit db2 auditId user.id "complete" escrowId
        ({ status := 200, msg := "Escrow marked as completed" }, db3)

/-- POST /api/admin/escrows/:id/refund: requireAdmin; escrow must be in
status dispute, then it is set to cancelled. -/
def adminRefundEscrow (db : DB) (user : Auth) (escrowId auditId : String) : Resp × DB :=
  if user.role ≠ "admin" then
    ({ status := 403, msg := "Admin access required" }, db)
  else
    match findEscrow db escrowId with
    | none => ({ status := 404, msg := "Escrow not found" }, db)
    | some escrow =>
      if escrow.status ≠ "dispute" then
        ({ status := 400, msg := "Escrow must be in dispute to refund" }, db)
      else
        let db1 := setEscrowStatus db escrowId "cancelled"
        let db2 := addAudit db1 auditId user.id "refund" escrowId
        ({ status := 200, msg := "Escrow refunded and cancelled" }, db2)

/-- POST /api/escrow/:id/cancel: a party to the escrow may cancel it while
still in status created. -/
def cancelEscrow (db : DB) (user : Auth) (escrowId auditId : String) : Resp × DB :=
  match findEscrow db escrowId with
  | none => ({ status := 404, msg := "Escrow not found" }, db)
  | some escrow =>
    if user.id ≠ escrow.buyer_id ∧ user.id ≠ escrow.seller_id then
      ({ status := 403, msg := "Only buyer or seller can cancel this escrow" }, db)
    else if escrow.status ≠ "created" then
      ({ status := 400, msg := "Escrow can only be cancelled before funding" }, db)
    else
      let db1 := setEscrowStatus db escrowId "cancelled"
      let db2 := addAudit db1 auditId user.id "cancel" escrowId
      ({ status := 200, msg := "Escrow cancelled successfully" }, db2)

/-- POST /api/escrow/:id/dispute: a party to the escrow opens a dispute while
the escrow is funded, shipped or confirmed; the escrow row is not touched. -/
def openDispute (db : DB) (user : Auth) (escrowId reason : String)
    (disputeId auditId : String) : Resp × DB :=
  if reason = "" then
    ({ status := 400, msg := "Reason is required" }, db)
  else
    match findEscrow db escrowId with
    | none => ({ status := 404, msg := "Escrow not found" }, db)
    | some escrow =>
      if user.id ≠ escrow.buyer_id ∧ user.id ≠ escrow.seller_id then
        ({ status := 403, msg := "Only buyer or seller can open dispute" }, db)
      else if escrow.status ≠ "funded" ∧ escrow.status ≠ "shipped" ∧ escrow.status ≠ "confirmed" then
        ({ status := 400, msg := "Cannot dispute escrow in current state" }, db)
      else
        let db1 : DB := { db with disputes := db.disputes ++ [⟨disputeId, escrowId, user.id, "open"⟩] }
        let db2 := addAudit db1 auditId user.id "dispute" disputeId
        ({ status := 201, msg := "Dispute opened successfully" }, db2)

/-- POST /api/admin/disputes/:id/reject: dispute rejected, escrow completed;
idempotent when already rejected + completed.  The escrow current status is
never checked before the update. -/
def adminRejectDispute (db : DB) (user : Auth) (disputeId auditId : String) : Resp × DB :=
  if user.role ≠ "admin" then
    ({ status := 403, msg := "Admin access required" }, db)
  else
    match findDispute db disputeId with
    | none => ({ status := 404, msg := "Dispute not found" }, db)
    | some d =>
      match findEscrow db d.escrow_id with
      | none => ({ status := 404, msg := "Dispute not found" }, db)
      | some e =>
        if d.status = "rejected" ∧ e.status = "completed" then
          ({ status := 200, msg := "Dispute already rejected and escrow completed" }, db)
        else
          let db1 := setEscrowStatus db d.escrow_id "completed"
          let db2 := setDisputeStatus db1 disputeId "rejected"
          let db3 := addAudit db2 auditId user.id "dispute_reject" disputeId
          ({ status := 200, msg := "Dispute rejected; escrow completed" }, db3)

/-- POST /api/admin/disputes/:id/approve: dispute resolved, escrow cancelled;
idempotent when already resolved + cancelled.  The escrow current status is
never checked before the update. -/
def adminApproveDispute (db : DB) (user : Auth) (disputeId auditId : String) : Resp × DB :=
  if user.role ≠ "admin" then
    ({ status := 403, msg := "Admin access required" }, db)
  else
    match findDispute db disputeId with
    | none => ({ status := 404, msg := "Dispute not found" }, db)
    | some d =>
      match findEscrow db d.escrow_id with
      | none => ({ status := 404, msg := "Dispute not found" }, db)
      | some e =>
        if d.status = "resolved" ∧ e.status = "cancelled" then
          ({ status := 200, msg := "Dispute already approved and escrow cancelled" }, db)
        else
          let db1 := setEscrowStatus db d.escrow_id "cancelled"
          let db2 := setDisputeStatus db1 disputeId "resolved"
          let db3 := addAudit db2 auditId user.id "dispute_approve" disputeId
          ({ status := 200, msg := "Dispute approved; escrow cancelled" }, db3)

/-- POST /api/disputes/:id/resolve: admin-only resolution with decision
favor_buyer, favor_seller or rejected; favor_seller checks the seller KYC and
releases the escrow with a payout; every decision sets the dispute resolved. -/
def resolveDispute (db : DB) (user : Auth) (disputeId decision : String)
    (payoutId auditId : String) : Resp × DB :=
  if user.role ≠ "admin" then
    ({ status := 403, msg := "Only admins can resolve disputes" }, db)
  else if decision ≠ "favor_buyer" ∧ decision ≠ "favor_seller" ∧ decision ≠ "rejected" then
    ({ status := 400, msg := "Decision must be favor_buyer, favor_seller, or rejected" }, db)
  else
    match findDispute db disputeId with
    | none => ({ status := 404, msg := "Dispute not found" }, db)
    | some d =>
      match findEscrow db d.escrow_id with
      | none => ({ status := 404, msg := "Dispute not found" }, db)
      | some e =>
        if d.status ≠ "open" then
          ({ status := 400, msg := "Dispute already resolved or closed" }, db)
        else if decision = "favor_seller" then
          match findUser db e.seller_id with
          | none => ({ status := 403, msg := "Seller is not KYC verified. Cannot release funds." }, db)
          | some seller =>
            if seller.kyc_status ≠ "verified" then
              ({ status := 403, msg := "Seller is not KYC verified. Cannot release funds." }, db)
            else
              let db1 := setEscrowStatus db d.escrow_id "released"
              let db2 : DB := { db1 with payouts := db1.payouts ++ [⟨payoutId, d.escrow_id, "pending"⟩] }
              let db3 := setDisputeStatus db2 disputeId "resolved"
              let db4 := addAudit db3 auditId user.id "resolve_dispute" disputeId
              ({ status := 200, msg := "Dispute resolved successfully" }, db4)
        else
          let db1 := setDisputeStatus db disputeId "resolved"
          let db2 := addAudit db1 auditId user.id "resolve_dispute" disputeId
          ({ status := 200, msg := "Dispute resolved successfully" }, db2)

/-- SQL NULL-aware equality used by the webhook dedup query: a NULL on either
side never matches. -/
def optRefEq : Option String → Option String → Bool
  | some a, some b => a == b
  | _, _ => false

/-- Dedup lookup: SELECT id FROM webhook_events WHERE
JSON_EXTRACT(payload, pg_ref path) = ? AND event_type = ?. -/
def findWebhookEvent (db : DB) (pgRef : Option String) (eventType : String) :
    Option WebhookEvent :=
  db.events.find? (fun w => optRefEq w.pg_ref pgRef && w.event_type == eventType)

/-- SELECT id, escrow_id FROM payment_intents WHERE pg_reference = ?. -/
def findIntentByRef (db : DB) (pgRef : String) : Option PaymentIntent :=
  db.intents.find? (fun i => optRefEq i.pg_reference (some pgRef))

/-- UPDATE payment_intents SET status = paid, ... WHERE id = ?. -/
def setIntentPaid (db : DB) (pid : String) : DB :=
  { db with intents := db.intents.map (fun i => if i.id = pid then { i with status := "paid" } else i) }

/-- UPDATE webhook_events SET processed = TRUE WHERE id = ?. -/
def setEventProcessed (db : DB) (eid : String) : DB :=
  { db with events := db.events.map (fun w => if w.id = eid then { w with processed := true } else w) }

/-- POST /webhooks/payments: signature required, dedup by (pg_ref, event
type), store the raw event, and on payment_succeeded mark the matching intent
paid and force the escrow to funded regardless of its current status. -/
def webhookPayments (db : DB) (hasSignature : Bool) (eventType : String)
    (pgRef : Option String) (eventId : String) : Resp × DB :=
  if ¬hasSignature then
    ({ status := 400, msg := "Missing signature" }, db)
  else
    match findWebhookEvent db pgRef eventType with
    | some _ => ({ status := 200, msg := "Event already processed" }, db)
    | none =>
      let db1 : DB := { db with events := db.events ++ [⟨eventId, eventType, pgRef, false⟩] }
      match pgRef with
      | some r =>
        if eventType = "payment_succeeded" then
          match findIntentByRef db1 r with
          | some intent =>
            let db2 := setIntentPaid db1 intent.id
            let db3 := setEscrowStatus db2 intent.escrow_id "funded"
            let db4 := setEventProcessed db3 eventId
            ({ status := 200, msg := "Webhook processed" }, db4)
          | none => ({ status := 200, msg := "Webhook processed" }, db1)
        else ({ status := 200, msg := "Webhook processed" }, db1)
      | none => ({ status := 200, msg := "Webhook processed" }, db1)

/-- Transition edges of the section 4.1 escrow state machine, transcribed
from the specification text: the main chain created, funded, shipped,
confirmed, released, completed, plus cancellation from created and the
refund detour from the dispute status.  This is the spec-side definition the
handlers are compared against. -/
def escrowGraphEdge : String → String → Bool
  | "created", "funded" => true
  | "funded", "shipped" => true
  | "shipped", "confirmed" => true
  | "confirmed", "released" => true
  | "released", "completed" => true
  | "created", "cancelled" => true
  | "dispute", "cancelled" => true
  | _, _ => false

/-- One request step respects the graph: every escrow id either keeps its
status (or stays absent) or moves along one edge of the section 4.1 graph. -/
def escrowStepOk (db db2 : DB) : Prop :=
  ∀ eid, statusOf db2 eid = statusOf db eid ∨
    ∃ a b, statusOf db eid = some a ∧ statusOf db2 eid = some b ∧ escrowGraphEdge a b = true

/-- Concrete database fixture used by the witness and counterexample
theorems: verified and unverified buyers and sellers, one escrow per
lifecycle status, open and resolved disputes, and a paid-pending payment
intent whose pg_reference points at the already shipped escrow. -/
def dbFix : DB :=
  { users := [⟨"buyer-1", "buyer", "verified"⟩, ⟨"seller-1", "seller", "verified"⟩,
      ⟨"seller-2", "seller", "pending"⟩, ⟨"admin-1", "admin", "pending"⟩,
      ⟨"buyer-2", "buyer", "pending"⟩],
    escrows := [⟨"esc-created", "buyer-1", "seller-1", 100, "created"⟩,
      ⟨"esc-funded", "buyer-1", "seller-1", 100, "funded"⟩,
      ⟨"esc-shipped", "buyer-1", "seller-1", 100, "shipped"⟩,
      ⟨"esc-confirmed", "buyer-1", "seller-1", 100, "confirmed"⟩,
      ⟨"esc-released", "buyer-1", "seller-1", 100, "released"⟩,
      ⟨"esc-confirmed-unv", "buyer-1", "seller-2", 100, "confirmed"⟩,
      ⟨"esc-created-unv", "buyer-1", "seller-2", 100, "created"⟩],
    payouts := [],
    disputes := [⟨"disp-open", "esc-shipped", "buyer-1", "open"⟩,
      ⟨"disp-open-unv", "esc-confirmed-unv", "buyer-1", "open"⟩,
      ⟨"disp-resolved", "esc-shipped", "buyer-1", "resolved"⟩],
    intents := [⟨"pi-1", "esc-shipped", some "ref1", "pending"⟩],
    events := [],
    audits := [] }

/-- Authenticated identities matching the fixture users. -/
def authBuyer : Auth := ⟨"buyer-1", "buyer"⟩

def authSeller : Auth := ⟨"seller-1", "seller"⟩

def authSeller2 : Auth := ⟨"seller-2", "seller"⟩

def authAdmin : Auth := ⟨"admin-1", "admin"⟩

def authBuyer2 : Auth := ⟨"buyer-2", "buyer"⟩

/-- The KYC gate used before releasing funds: the user row is missing or its
kyc_status differs from verified (sellers.length equals 0, or the first
seller row is not verified). -/
def sellerKycMissing (db : DB) (uid : String) : Bool :=
  match findUser db uid with
  | none => true
  | some s => s.kyc_status != "verified"

/-- Fixture with one already-stored payment_succeeded webhook event for ref1. -/
def dbFixEvt : DB :=
  { dbFix with events := [⟨"evt-0", "payment_succeeded", some "ref1", true⟩] }

/-! Helper lemmas: how the row lookups interact with the row updates. -/

theorem find?_map_pred {α : Type} (f : α → α) (p : α → Bool)
    (hf : ∀ a, p (f a) = p a) : ∀ l : List α, (l.map f).find? p = (l.find? p).map f := by
  intro l
  induction l with
  | nil => rfl
  | cons a l ih =>
    by_cases h : p a = true
    · rw [List.map_cons, List.find?_cons_of_pos _ ((hf a).trans h), List.find?_cons_of_pos _ h]
      rfl
    · have h2 : ¬p (f a) = true := by rw [hf]; exact h
      rw [List.map_cons, List.find?_cons_of_neg _ h2, List.find?_cons_of_neg _ h, ih]

theorem findEscrowIn_setStatusIn (l : List Escrow) (tid s eid : String) :
    findEscrowIn (setStatusIn l tid s) eid =
      (findEscrowIn l eid).map (fun e => if e.id = tid then { e with status := s } else e) := by
  unfold findEscrowIn setStatusIn
  apply find?_map_pred
  intro a
  by_cases h : a.id = tid <;> simp [h]

theorem findEscrowIn_setStatusIn_self (l : List Escrow) (tid s : String) (e : Escrow)
    (h : findEscrowIn l tid = some e) :
    findEscrowIn (setStatusIn l tid s) tid = some { e with status := s } := by
  have h2 : l.find? (fun x => x.id == tid) = some e := h
  have hid : e.id = tid := by simpa using List.find?_some h2
  rw [findEscrowIn_setStatusIn, h]
  simp [hid]

theorem findEscrowIn_setStatusIn_other (l : List Escrow) (tid s eid : String) (h : eid ≠ tid) :
    findEscrowIn (setStatusIn l tid s) eid = findEscrowIn l eid := by
  rw [findEscrowIn_setStatusIn]
  cases hfe : findEscrowIn l eid with
  | none => rfl
  | some x =>
    have h2 : l.find? (fun y => y.id == eid) = some x := hfe
    have hx : x.id = eid := by simpa using List.find?_some h2
    simp [hx, h]

theorem findDisputeIn_setDisputeStatusIn (l : List Dispute) (tid s did : String) :
    findDisputeIn (setDisputeStatusIn l tid s) did =
      (findDisputeIn l did).map (fun d => if d.id = tid then { d with status := s } else d) := by
  unfold findDisputeIn setDisputeStatusIn
  apply find?_map_pred
  intro a
  by_cases h : a.id = tid <;> simp [h]

theorem findDisputeIn_set_self (l : List Dispute) (tid s : String) (d : Dispute)
    (h : findDisputeIn l tid = some d) :
    findDisputeIn (setDisputeStatusIn l tid s) tid = some { d with status := s } := by
  have h2 : l.find? (fun x => x.id == tid) = some d := h
  have hid : d.id = tid := by simpa using List.find?_some h2
  rw [findDisputeIn_setDisputeStatusIn, h]
  simp [hid]

/-! Helper lemmas: the one-step graph invariant. -/

theorem escrowStepOk_refl (db db2 : DB) (h : db2.escrows = db.escrows) : escrowStepOk db db2 := by
  intro eid
  left
  simp [statusOf, h]

theorem escrowStepOk_set (db db2 : DB) (tid s : String) (e : Escrow)
    (hl : db2.escrows = setStatusIn db.escrows tid s)
    (hfound : findEscrowIn db.escrows tid = some e)
    (hedge : escrowGraphEdge e.status s = true) :
    escrowStepOk db db2 := by
  intro eid
  by_cases heq : eid = tid
  · subst heq
    right
    refine ⟨e.status, s, ?_, ?_, hedge⟩
    · simp [statusOf, hfound]
    · simp [statusOf, hl, findEscrowIn_setStatusIn_self db.escrows eid s e hfound]
  · left
    simp [statusOf, hl, findEscrowIn_setStatusIn_other db.escrows tid s eid heq]

theorem fundEscrow_stepOk (db : DB) (u : Auth) (eid m pg pid aid : String) :
    escrowStepOk db (fundEscrow db u eid m pg pid aid).2 := by
  by_cases h1 : m = "" ∨ pg = ""
  · simp only [fundEscrow, if_pos h1]
    exact escrowStepOk_refl _ _ rfl
  · cases hfe : findEscrow db eid with
    | none =>
      simp only [fundEscrow, if_neg h1, hfe]
      exact escrowStepOk_refl _ _ rfl
    | some e =>
      by_cases h2 : e.status ≠ "created"
      · simp only [fundEscrow, if_neg h1, hfe, if_pos h2]
        exact escrowStepOk_refl _ _ rfl
      · simp only [fundEscrow, if_neg h1, hfe, if_neg h2]
        exact escrowStepOk_set db _ eid "funded" e rfl hfe (by rw [not_not.mp h2]; rfl)

theorem shipEscrowBasic_stepOk (db : DB) (u : Auth) (eid aid : String) :
    escrowStepOk db (shipEscrowBasic db u eid aid).2 := by
  by_cases h1 : u.role ≠ "seller"
  · simp only [shipEscrowBasic, if_pos h1]
    exact escrowStepOk_refl _ _ rfl
  · cases hfe : findEscrow db eid with
    | none =>
      simp only [shipEscrowBasic, if_neg h1, hfe]
      exact escrowStepOk_refl _ _ rfl
    | some e =>
      by_cases h2 : e.status ≠ "funded"
      · simp only [shipEscrowBasic, if_neg h1, hfe, if_pos h2]
        exact escrowStepOk_refl _ _ rfl
      · simp only [shipEscrowBasic, if_neg h1, hfe, if_neg h2]
        exact escrowStepOk_set db _ eid "shipped" e rfl hfe (by rw [not_not.mp h2]; rfl)

theorem shipEscrowKyc_stepOk (db : DB) (u : Auth) (eid aid : String) :
    escrowStepOk db (shipEscrowKyc db u eid aid).2 := by
  by_cases h1 : u.role ≠ "seller"
  · simp only [shipEscrowKyc, if_pos h1]
    exact escrowStepOk_refl _ _ rfl
  · cases hfu : findUser db u.id with
    | none =>
      simp only [shipEscrowKyc, if_neg h1, hfu]
      exact escrowStepOk_refl _ _ rfl
    | some c =>
      by_cases h2 : c.kyc_status ≠ "verified"
      · simp only [shipEscrowKyc, if_neg h1, hfu, if_pos h2]
        exact escrowStepOk_refl _ _ rfl
      · cases hfe : findEscrow db eid with
        | none =>
          simp only [shipEscrowKyc, if_neg h1, hfu, if_neg h2, hfe]
          exact escrowStepOk_refl _ _ rfl
        | some e =>
          by_cases h3 : e.seller_id ≠ u.id
          · simp only [shipEscrowKyc, if_neg h1, hfu, if_neg h2, hfe, if_pos h3]
            exact escrowStepOk_refl _ _ rfl
          · by_cases h4 : e.status ≠ "funded"
            · simp only [shipEscrowKyc, if_neg h1, hfu, if_neg h2, hfe, if_neg h3, if_pos h4]
              exact escrowStepOk_refl _ _ rfl
            · simp only [shipEscrowKyc, if_neg h1, hfu, if_neg h2, hfe, if_neg h3, if_neg h4]
              exact escrowStepOk_set db _ eid "shipped" e rfl hfe (by rw [not_not.mp h4]; rfl)

theorem confirmEscrowBasic_stepOk (db : DB) (u : Auth) (eid aid : String) :
    escrowStepOk db (confirmEscrowBasic db u eid aid).2 := by
  by_cases h1 : u.role ≠ "buyer"
  · simp only [confirmEscrowBasic, if_pos h1]
    exact escrowStepOk_refl _ _ rfl
  · cases hfe : findEscrow db eid with
    | none =>
      simp only [confirmEscrowBasic, if_neg h1, hfe]
      exact escrowStepOk_refl _ _ rfl
    | some e =>
      by_cases h2 : e.status ≠ "shipped"
      · simp only [confirmEscrowBasic, if_neg h1, hfe, if_pos h2]
        exact escrowStepOk_refl _ _ rfl
      · simp only [confirmEscrowBasic, if_neg h1, hfe, if_neg h2]
        exact escrowStepOk_set db _ eid "confirmed" e rfl hfe (by rw [not_not.mp h2]; rfl)

theorem confirmEscrowOwner_stepOk (db : DB) (u : Auth) (eid aid : String) :
    escrowStepOk db (confirmEscrowOwner db u eid aid).2 := by
  by_cases h1 : u.role ≠ "buyer"
  · simp only [confirmEscrowOwner, if_pos h1]
    exact escrowStepOk_refl _ _ rfl
  · cases hfe : findEscrow db eid with
    | none =>
      simp only [confirmEscrowOwner, if_neg h1, hfe]
      exact escrowStepOk_refl _ _ rfl
    | some e =>
      by_cases h2 : e.buyer_id ≠ u.id
      · simp only [confirmEscrowOwner, if_neg h1, hfe, if_pos h2]
        exact escrowStepOk_refl _ _ rfl
      · by_cases h3 : e.status ≠ "shipped"
        · simp only [confirmEscrowOwner, if_neg h1, hfe, if_neg h2, if_pos h3]
          exact escrowStepOk_refl _ _ rfl
        · simp only [confirmEscrowOwner, if_neg h1, hfe, if_neg h2, if_neg h3]
          exact escrowStepOk_set db _ eid "confirmed" e rfl hfe (by rw [not_not.mp h3]; rfl)

theorem releaseEscrowAdminLegacy_stepOk (db : DB) (u : Auth) (eid pid aid : String) :
    escrowStepOk db (releaseEscrowAdminLegacy db u eid pid aid).2 := by
  by_cases h1 : u.role ≠ "admin"
  · simp only [releaseEscrowAdminLegacy, if_pos h1]
    exact escrowStepOk_refl _ _ rfl
  · cases hfe : findEscrow db eid with
    | none =>
      simp only [releaseEscrowAdminLegacy, if_neg h1, hfe]
      exact escrowStepOk_refl _ _ rfl
    | some e =>
      by_cases h2 : e.status ≠ "confirmed"
      · simp only [releaseEscrowAdminLegacy, if_neg h1, hfe, if_pos h2]
        exact escrowStepOk_refl _ _ rfl
      · simp only [releaseEscrowAdminLegacy, if_neg h1, hfe, if_neg h2]
        exact escrowStepOk_set db _ eid "released" e rfl hfe (by rw [not_not.mp h2]; rfl)

theorem releaseEscrowAdminKyc_stepOk (db : DB) (u : Auth) (eid pid aid : String) :
    escrowStepOk db (releaseEscrowAdminKyc db u eid pid aid).2 := by
  by_cases h1 : u.role ≠ "admin"
  · simp only [releaseEscrowAdminKyc, if_pos h1]
    exact escrowStepOk_refl _ _ rfl
  · cases hfe : findEscrow db eid with
    | none =>
      simp only [releaseEscrowAdminKyc, if_neg h1, hfe]
      exact escrowStepOk_refl _ _ rfl
    | some e =>
      by_cases h2 : e.status ≠ "confirmed"
      · simp only [releaseEscrowAdminKyc, if_neg h1, hfe, if_pos h2]
        exact escrowStepOk_refl _ _ rfl
      · cases hfu : findUser db e.seller_id with
        | none =>
          simp only [releaseEscrowAdminKyc, if_neg h1, hfe, if_neg h2, hfu]
          exact escrowStepOk_refl _ _ rfl
        | some s =>
          by_cases h3 : s.kyc_status ≠ "verified"
          · simp only [releaseEscrowAdminKyc, if_neg h1, hfe, if_neg h2, hfu, if_pos h3]
            exact escrowStepOk_refl _ _ rfl
          · simp only [releaseEscrowAdminKyc, if_neg h1, hfe, if_neg h2, hfu, if_neg h3]
            exact escrowStepOk_set db _ eid "released" e rfl hfe (by rw [not_not.mp h2]; rfl)

theorem releaseEscrowBuyer_stepOk (db : DB) (u : Auth) (eid pid : String) :
    escrowStepOk db (releaseEscrowBuyer db u eid pid).2 := by
  cases hfu : findUser db u.id with
  | none =>
    simp only [releaseEscrowBuyer, hfu]
    exact escrowStepOk_refl _ _ rfl
  | some c =>
    by_cases h1 : c.kyc_status ≠ "verified"
    · simp only [releaseEscrowBuyer, hfu, if_pos h1]
      exact escrowStepOk_refl _ _ rfl
    · cases hfe : findEscrow db eid with
      | none =>
        simp only [releaseEscrowBuyer, hfu, if_neg h1, hfe]
        exact escrowStepOk_refl _ _ rfl
      | some e =>
        by_cases h2 : u.id ≠ e.buyer_id
        · simp only [releaseEscrowBuyer, hfu, if_neg h1, hfe, if_pos h2]
          exact escrowStepOk_refl _ _ rfl
        · by_cases h3 : e.status ≠ "confirmed"
          · simp only [releaseEscrowBuyer, hfu, if_neg h1, hfe, if_neg h2, if_pos h3]
            exact escrowStepOk_refl _ _ rfl
          · simp only [releaseEscrowBuyer, hfu, if_neg h1, hfe, if_neg h2, if_neg h3]
            exact escrowStepOk_set db _ eid "released" e rfl hfe (by rw [not_not.mp h3]; rfl)

theorem adminReleaseEscrow_stepOk (db : DB) (u : Auth) (eid pid aid : String) :
    escrowStepOk db (adminReleaseEscrow db u eid pid aid).2 := by
  by_cases h1 : u.role ≠ "admin"
  · simp only [adminReleaseEscrow, if_pos h1]
    exact escrowStepOk_refl _ _ rfl
  · cases hfe : findEscrow db eid with
    | none =>
      simp only [adminReleaseEscrow, if_neg h1, hfe]
      exact escrowStepOk_refl _ _ rfl
    | some e =>
      by_cases h2 : e.status = "released"
      · simp only [adminReleaseEscrow, if_neg h1, hfe, if_pos h2]
        exact escrowStepOk_refl _ _ rfl
      · by_cases h3 : e.status ≠ "confirmed"
        · simp only [adminReleaseEscrow, if_neg h1, hfe, if_neg h2, if_pos h3]
          exact escrowStepOk_refl _ _ rfl
        · cases hfu : findUser db e.seller_id with
          | none =>
            simp only [adminReleaseEscrow, if_neg h1, hfe, if_neg h2, if_neg h3, hfu]
            exact escrowStepOk_refl _ _ rfl
          | some s =>
            by_cases h4 : s.kyc_status ≠ "verified"
            · simp only [adminReleaseEscrow, if_neg h1, hfe, if_neg h2, if_neg h3, hfu, if_pos h4]
              exact escrowStepOk_refl _ _ rfl
            · simp only [adminReleaseEscrow, if_neg h1, hfe, if_neg h2, if_neg h3, hfu, if_neg h4]
              exact escrowStepOk_set db _ eid "released" e rfl hfe (by rw [not_not.mp h3]; rfl)

theorem adminCompleteEscrow_stepOk (db : DB) (u : Auth) (eid pa aid : String) :
    escrowStepOk db (adminCompleteEscrow db u eid pa aid).2 := by
  by_cases h1 : u.role ≠ "admin"
  · simp only [adminCompleteEscrow, if_pos h1]
    exact escrowStepOk_refl _ _ rfl
  · cases hfe : findEscrow db eid with
    | none =>
      simp only [adminCompleteEscrow, if_neg h1, hfe]
      exact escrowStepOk_refl _ _ rfl
    | some e =>
      by_cases h2 : e.status = "completed"
      · simp only [adminCompleteEscrow, if_neg h1, hfe, if_pos h2]
        exact escrowStepOk_refl _ _ rfl
      · by_cases h3 : e.status ≠ "released"
        · simp only [adminCompleteEscrow, if_neg h1, hfe, if_neg h2, if_pos h3]
          exact escrowStepOk_refl _ _ rfl
        · simp only [adminCompleteEscrow, if_neg h1, hfe, if_neg h2, if_neg h3]
          refine escrowStepOk_set db _ eid "completed" e ?_ hfe (by rw [not_not.mp h3]; rfl)
          split
          · split <;> rfl
          · rfl

theorem adminRefundEscrow_stepOk (db : DB) (u : Auth) (eid aid : String) :
    escrowStepOk db (adminRefundEscrow db u eid aid).2 := by
  by_cases h1 : u.role ≠ "admin"
  · simp only [adminRefundEscrow, if_pos h1]
    exact escrowStepOk_refl _ _ rfl
  · cases hfe : findEscrow db eid with
    | none =>
      simp only [adminRefundEscrow, if_neg h1, hfe]
      exact escrowStepOk_refl _ _ rfl
    | some e =>
      by_cases h2 : e.status ≠ "dispute"
      · simp only [adminRefundEscrow, if_neg h1, hfe, if_pos h2]
        exact escrowStepOk_refl _ _ rfl
      · simp only [adminRefundEscrow, if_neg h1, hfe, if_neg h2]
        exact escrowStepOk_set db _ eid "cancelled" e rfl hfe (by rw [not_not.mp h2]; rfl)

theorem cancelEscrow_stepOk (db : DB) (u : Auth) (eid aid : String) :
    escrowStepOk db (cancelEscrow db u eid aid).2 := by
  cases hfe : findEscrow db eid with
  | none =>
    simp only [cancelEscrow, hfe]
    exact escrowStepOk_refl _ _ rfl
  | some e =>
    by_cases h1 : u.id ≠ e.buyer_id ∧ u.id ≠ e.seller_id
    · simp only [cancelEscrow, hfe, if_pos h1]
      exact escrowStepOk_refl _ _ rfl
    · by_cases h2 : e.status ≠ "created"
      · simp only [cancelEscrow, hfe, if_neg h1, if_pos h2]
        exact escrowStepOk_refl _ _ rfl
      · simp only [cancelEscrow, hfe, if_neg h1, if_neg h2]
        exact escrowStepOk_set db _ eid "cancelled" e rfl hfe (by rw [not_not.mp h2]; rfl)

/-! Helper lemmas: each guarded endpoint rejects a wrong current status with
HTTP 400 and leaves the database untouched. -/

theorem fundEscrow_wrongState (db : DB) (u : Auth) (eid m pg pid aid : String) (e : Escrow)
    (hm : m ≠ "") (hpg : pg ≠ "") (hfe : findEscrow db eid = some e)
    (hst : e.status ≠ "created") :
    (fundEscrow db u eid m pg pid aid).1.status = 400 ∧ (fundEscrow db u eid m pg pid aid).2 = db := by
  simp [fundEscrow, hm, hpg, hfe, hst]

theorem shipEscrowBasic_wrongState (db : DB) (u : Auth) (eid aid : String) (e : Escrow)
    (hrole : u.role = "seller") (hfe : findEscrow db eid = some e)
    (hst : e.status ≠ "funded") :
    (shipEscrowBasic db u eid aid).1.status = 400 ∧ (shipEscrowBasic db u eid aid).2 = db := by
  simp [shipEscrowBasic, hrole, hfe, hst]

theorem shipEscrowKyc_wrongState (db : DB) (u : Auth) (eid aid : String) (c : UserRow) (e : Escrow)
    (hrole : u.role = "seller") (hfu : findUser db u.id = some c)
    (hkyc : c.kyc_status = "verified") (hfe : findEscrow db eid = some e)
    (hown : e.seller_id = u.id) (hst : e.status ≠ "funded") :
    (shipEscrowKyc db u eid aid).1.status = 400 ∧ (shipEscrowKyc db u eid aid).2 = db := by
  simp [shipEscrowKyc, hrole, hfu, hkyc, hfe, hown, hst]

theorem confirmEscrowBasic_wrongState (db : DB) (u : Auth) (eid aid : String) (e : Escrow)
    (hrole : u.role = "buyer") (hfe : findEscrow db eid = some e)
    (hst : e.status ≠ "shipped") :
    (confirmEscrowBasic db u eid aid).1.status = 400 ∧ (confirmEscrowBasic db u eid aid).2 = db := by
  simp [confirmEscrowBasic, hrole, hfe, hst]

theorem confirmEscrowOwner_wrongState (db : DB) (u : Auth) (eid aid : String) (e : Escrow)
    (hrole : u.role = "buyer") (hfe : findEscrow db eid = some e)
    (hown : e.buyer_id = u.id) (hst : e.status ≠ "shipped") :
    (confirmEscrowOwner db u eid aid).1.status = 400 ∧ (confirmEscrowOwner db u eid aid).2 = db := by
  simp [confirmEscrowOwner, hrole, hfe, hown, hst]

theorem releaseEscrowAdminLegacy_wrongState (db : DB) (u : Auth) (eid pid aid : String) (e : Escrow)
    (hrole : u.role = "admin") (hfe : findEscrow db eid = some e)
    (hst : e.status ≠ "confirmed") :
    (releaseEscrowAdminLegacy db u eid pid aid).1.status = 400 ∧
      (releaseEscrowAdminLegacy db u eid pid aid).2 = db := by
  simp [releaseEscrowAdminLegacy, hrole, hfe, hst]

theorem releaseEscrowAdminKyc_wrongState (db : DB) (u : Auth) (eid pid aid : String) (e : Escrow)
    (hrole : u.role = "admin") (hfe : findEscrow db eid = some e)
    (hst : e.status ≠ "confirmed") :
    (releaseEscrowAdminKyc db u eid pid aid).1.status = 400 ∧
      (releaseEscrowAdminKyc db u eid pid aid).2 = db := by
  simp [releaseEscrowAdminKyc, hrole, hfe, hst]

theorem releaseEscrowBuyer_wrongState (db : DB) (u : Auth) (eid pid : String) (c : UserRow) (e : Escrow)
    (hfu : findUser db u.id = some c) (hkyc : c.kyc_status = "verified")
    (hfe : findEscrow db eid = some e) (hown : u.id = e.buyer_id)
    (hst : e.status ≠ "confirmed") :
    (releaseEscrowBuyer db u eid pid).1.status = 400 ∧ (releaseEscrowBuyer db u eid pid).2 = db := by
  have hno : ¬u.id ≠ e.buyer_id := by simp [hown]
  simp [releaseEscrowBuyer, hfu, hkyc, hfe, hno, hst]

theorem adminReleaseEscrow_wrongState (db : DB) (u : Auth) (eid pid aid : String) (e : Escrow)
    (hrole : u.role = "admin") (hfe : findEscrow db eid = some e)
    (hrel : e.status ≠ "released") (hst : e.status ≠ "confirmed") :
    (adminReleaseEscrow db u eid pid aid).1.status = 400 ∧
      (adminReleaseEscrow db u eid pid aid).2 = db := by
  simp [adminReleaseEscrow, hrole, hfe, hrel, hst]

theorem adminCompleteEscrow_wrongState (db : DB) (u : Auth) (eid pa aid : String) (e : Escrow)
    (hrole : u.role = "admin") (hfe : findEscrow db eid = some e)
    (hcom : e.status ≠ "completed") (hst : e.status ≠ "released") :
    (adminCompleteEscrow db u eid pa aid).1.status = 400 ∧
      (adminCompleteEscrow db u eid pa aid).2 = db := by
  simp [adminCompleteEscrow, hrole, hfe, hcom, hst]

theorem adminRefundEscrow_wrongState (db : DB) (u : Auth) (eid aid : String) (e : Escrow)
    (hrole : u.role = "admin") (hfe : findEscrow db eid = some e)
    (hst : e.status ≠ "dispute") :
    (adminRefundEscrow db u eid aid).1.status = 400 ∧ (adminRefundEscrow db u eid aid).2 = db := by
  simp [adminRefundEscrow, hrole, hfe, hst]

theorem cancelEscrow_wrongState (db : DB) (u : Auth) (eid aid : String) (e : Escrow)
    (hfe : findEscrow db eid = some e) (hparty : u.id = e.buyer_id ∨ u.id = e.seller_id)
    (hst : e.status ≠ "created") :
    (cancelEscrow db u eid aid).1.status = 400 ∧ (cancelEscrow db u eid aid).2 = db := by
  have hp : ¬(u.id ≠ e.buyer_id ∧ u.id ≠ e.seller_id) := by
    rcases hparty with h | h <;> simp [h]
  simp [cancelEscrow, hfe, hp, hst]

/-- Claim C1, amended.  The status-guarded lifecycle endpoints (fund, both
ship variants, both confirm variants, the four release variants, admin
complete, admin refund, cancel) move an escrow status only along the edges
of the section 4.1 graph, and any request to one of them whose from-state
precondition fails (after its authentication and ownership checks) is
rejected with HTTP 400 and leaves the database unchanged; the admin release
and complete endpoints treat already-released and not-yet-released (resp.
already-completed and not-yet-completed) separately, answering 400 only when
the escrow is in neither the source nor the target state.  The original
claim quantified over every mutating endpoint, which fails for the dispute
reject/approve/resolve handlers and the webhooks (see the counterexample). -/
theorem claim_C1_guarded_transitions :
    (∀ (db : DB) (u : Auth) (eid m pg pid aid : String),
      escrowStepOk db (fundEscrow db u eid m pg pid aid).2) ∧
    (∀ (db : DB) (u : Auth) (eid aid : String),
      escrowStepOk db (shipEscrowBasic db u eid aid).2) ∧
    (∀ (db : DB) (u : Auth) (eid aid : String),
      escrowStepOk db (shipEscrowKyc db u eid aid).2) ∧
    (∀ (db : DB) (u : Auth) (eid aid : String),
      escrowStepOk db (confirmEscrowBasic db u eid aid).2) ∧
    (∀ (db : DB) (u : Auth) (eid aid : String),
      escrowStepOk db (confirmEscrowOwner db u eid aid).2) ∧
    (∀ (db : DB) (u : Auth) (eid pid aid : String),
      escrowStepOk db (releaseEscrowAdminLegacy db u eid pid aid).2) ∧
    (∀ (db : DB) (u : Auth) (eid pid aid : String),
      escrowStepOk db (releaseEscrowAdminKyc db u eid pid aid).2) ∧
    (∀ (db : DB) (u : Auth) (eid pid : String),
      escrowStepOk db (releaseEscrowBuyer db u eid pid).2) ∧
    (∀ (db : DB) (u : Auth) (eid pid aid : String),
      escrowStepOk db (adminReleaseEscrow db u eid pid aid).2) ∧
    (∀ (db : DB) (u : Auth) (eid pa aid : String),
      escrowStepOk db (adminCompleteEscrow db u eid pa aid).2) ∧
    (∀ (db : DB) (u : Auth) (eid aid : String),
      escrowStepOk db (adminRefundEscrow db u eid aid).2) ∧
    (∀ (db : DB) (u : Auth) (eid aid : String),
      escrowStepOk db (cancelEscrow db u eid aid).2) ∧
    (∀ (db : DB) (u : Auth) (eid m pg pid aid : String) (e : Escrow),
      m ≠ "" → pg ≠ "" → findEscrow db eid = some e → e.status ≠ "created" →
      (fundEscrow db u eid m pg pid aid).1.status = 400 ∧
        (fundEscrow db u eid m pg pid aid).2 = db) ∧
    (∀ (db : DB) (u : Auth) (eid aid : String) (e : Escrow),
      u.role = "seller" → findEscrow db eid = some e → e.status ≠ "funded" →
      (shipEscrowBasic db u eid aid).1.status = 400 ∧ (shipEscrowBasic db u eid aid).2 = db) ∧
    (∀ (db : DB) (u : Auth) (eid aid : String) (c : UserRow) (e : Escrow),
      u.role = "seller" → findUser db u.id = some c → c.kyc_status = "verified" →
      findEscrow db eid = some e → e.seller_id = u.id → e.status ≠ "funded" →
      (shipEscrowKyc db u eid aid).1.status = 400 ∧ (shipEscrowKyc db u eid aid).2 = db) ∧
    (∀ (db : DB) (u : Auth) (eid aid : String) (e : Escrow),
      u.role = "buyer" → findEscrow db eid = some e → e.status ≠ "shipped" →
      (confirmEscrowBasic db u eid aid).1.status = 400 ∧ (confirmEscrowBasic db u eid aid).2 = db) ∧
    (∀ (db : DB) (u : Auth) (eid aid : String) (e : Escrow),
      u.role = "buyer" → findEscrow db eid = some e → e.buyer_id = u.id → e.status ≠ "shipped" →
      (confirmEscrowOwner db u eid aid).1.status = 400 ∧ (confirmEscrowOwner db u eid aid).2 = db) ∧
    (∀ (db : DB) (u : Auth) (eid pid aid : String) (e : Escrow),
      u.role = "admin" → findEscrow db eid = some e → e.status ≠ "confirmed" →
      (releaseEscrowAdminLegacy db u eid pid aid).1.status = 400 ∧
        (releaseEscrowAdminLegacy db u eid pid aid).2 = db) ∧
    (∀ (db : DB) (u : Auth) (eid pid aid : String) (e : Escrow),
      u.role = "admin" → findEscrow db eid = some e → e.status ≠ "confirmed" →
      (releaseEscrowAdminKyc db u eid pid aid).1.status = 400 ∧
        (releaseEscrowAdminKyc db u eid pid aid).2 = db) ∧
    (∀ (db : DB) (u : Auth) (eid pid : String) (c : UserRow) (e : Escrow),
      findUser db u.id = some c → c.kyc_status = "verified" →
      findEscrow db eid = some e → u.id = e.buyer_id → e.status ≠ "confirmed" →
      (releaseEscrowBuyer db u eid pid).1.status = 400 ∧ (releaseEscrowBuyer db u eid pid).2 = db) ∧
    (∀ (db : DB) (u : Auth) (eid pid aid : String) (e : Escrow),
      u.role = "admin" → findEscrow db eid = some e → e.status ≠ "released" →
      e.status ≠ "confirmed" →
      (adminReleaseEscrow db u eid pid aid).1.status = 400 ∧
        (adminReleaseEscrow db u eid pid aid).2 = db) ∧
    (∀ (db : DB) (u : Auth) (eid pa aid : String) (e : Escrow),
      u.role = "admin" → findEscrow db eid = some e → e.status ≠ "completed" →
      e.status ≠ "released" →
      (adminCompleteEscrow db u eid pa aid).1.status = 400 ∧
        (adminCompleteEscrow db u eid pa aid).2 = db) ∧
    (∀ (db : DB) (u : Auth) (eid aid : String) (e : Escrow),
      u.role = "admin" → findEscrow db eid = some e → e.status ≠ "dispute" →
      (adminRefundEscrow db u eid aid).1.status = 400 ∧ (adminRefundEscrow db u eid aid).2 = db) ∧
    (∀ (db : DB) (u : Auth) (eid aid : String) (e : Escrow),
      findEscrow db eid = some e → (u.id = e.buyer_id ∨ u.id = e.seller_id) →
      e.status ≠ "created" →
      (cancelEscrow db u eid aid).1.status = 400 ∧ (cancelEscrow db u eid aid).2 = db) :=
  ⟨fundEscrow_stepOk, shipEscrowBasic_stepOk, shipEscrowKyc_stepOk, confirmEscrowBasic_stepOk,
    confirmEscrowOwner_stepOk, releaseEscrowAdminLegacy_stepOk, releaseEscrowAdminKyc_stepOk,
    releaseEscrowBuyer_stepOk, adminReleaseEscrow_stepOk, adminCompleteEscrow_stepOk,
    adminRefundEscrow_stepOk, cancelEscrow_stepOk, fundEscrow_wrongState,
    shipEscrowBasic_wrongState, shipEscrowKyc_wrongState, confirmEscrowBasic_wrongState,
    confirmEscrowOwner_wrongState, releaseEscrowAdminLegacy_wrongState,
    releaseEscrowAdminKyc_wrongState, releaseEscrowBuyer_wrongState,
    adminReleaseEscrow_wrongState, adminCompleteEscrow_wrongState, adminRefundEscrow_wrongState,
    cancelEscrow_wrongState⟩

/-- Counterexample for C1 as stated: a first-time payment_succeeded webhook
delivery for pg_ref ref1 finds the payment intent of the already shipped
escrow and moves it back to funded, answering HTTP 200; shipped to funded is
not an edge of the section 4.1 graph and no 400 is returned. -/
theorem claim_C1_counterexample :
    statusOf dbFix "esc-shipped" = some "shipped" ∧
    (webhookPayments dbFix true "payment_succeeded" (some "ref1") "evt-1").1.status = 200 ∧
    statusOf (webhookPayments dbFix true "payment_succeeded" (some "ref1") "evt-1").2 "esc-shipped"
      = some "funded" ∧
    escrowGraphEdge "shipped" "funded" = false := by
  decide

/-- Witness for C1: each guarded endpoint evaluated on the fixture with a
wrong current status answers 400 and leaves the database unchanged. -/
theorem claim_C1_witness :
    ((fundEscrow dbFix authBuyer "esc-funded" "qr" "ref9" "pi-9" "au-9").1.status = 400 ∧
      (fundEscrow dbFix authBuyer "esc-funded" "qr" "ref9" "pi-9" "au-9").2 = dbFix) ∧
    ((shipEscrowBasic dbFix authSeller "esc-created" "au-9").1.status = 400 ∧
      (shipEscrowBasic dbFix authSeller "esc-created" "au-9").2 = dbFix) ∧
    ((shipEscrowKyc dbFix authSeller "esc-shipped" "au-9").1.status = 400 ∧
      (shipEscrowKyc dbFix authSeller "esc-shipped" "au-9").2 = dbFix) ∧
    ((confirmEscrowBasic dbFix authBuyer "esc-created" "au-9").1.status = 400 ∧
      (confirmEscrowBasic dbFix authBuyer "esc-created" "au-9").2 = dbFix) ∧
    ((confirmEscrowOwner dbFix authBuyer "esc-created" "au-9").1.status = 400 ∧
      (confirmEscrowOwner dbFix authBuyer "esc-created" "au-9").2 = dbFix) ∧
    ((releaseEscrowAdminLegacy dbFix authAdmin "esc-created" "po-9" "au-9").1.status = 400 ∧
      (releaseEscrowAdminLegacy dbFix authAdmin "esc-created" "po-9" "au-9").2 = dbFix) ∧
    ((releaseEscrowAdminKyc dbFix authAdmin "esc-created" "po-9" "au-9").1.status = 400 ∧
      (releaseEscrowAdminKyc dbFix authAdmin "esc-created" "po-9" "au-9").2 = dbFix) ∧
    ((releaseEscrowBuyer dbFix authBuyer "esc-funded" "po-9").1.status = 400 ∧
      (releaseEscrowBuyer dbFix authBuyer "esc-funded" "po-9").2 = dbFix) ∧
    ((adminReleaseEscrow dbFix authAdmin "esc-funded" "po-9" "au-9").1.status = 400 ∧
      (adminReleaseEscrow dbFix authAdmin "esc-funded" "po-9" "au-9").2 = dbFix) ∧
    ((adminCompleteEscrow dbFix authAdmin "esc-funded" "po-9" "au-9").1.status = 400 ∧
      (adminCompleteEscrow dbFix authAdmin "esc-funded" "po-9" "au-9").2 = dbFix) ∧
    ((adminRefundEscrow dbFix authAdmin "esc-funded" "au-9").1.status = 400 ∧
      (adminRefundEscrow dbFix authAdmin "esc-funded" "au-9").2 = dbFix) ∧
    ((cancelEscrow dbFix authBuyer "esc-funded" "au-9").1.status = 400 ∧
      (cancelEscrow dbFix authBuyer "esc-funded" "au-9").2 = dbFix) := by
  obtain ⟨-, -, -, -, -, -, -, -, -, -, -, -, b1, b2, b3, b4, b5, b6, b7, b8, b9, b10, b11, b12⟩ :=
    claim_C1_guarded_transitions
  refine ⟨?_, ?_, ?_, ?_, ?_, ?_, ?_, ?_, ?_, ?_, ?_, ?_⟩
  · exact b1 dbFix authBuyer "esc-funded" "qr" "ref9" "pi-9" "au-9"
      ⟨"esc-funded", "buyer-1", "seller-1", 100, "funded"⟩ (by decide) (by decide) (by decide)
      (by decide)
  · exact b2 dbFix authSeller "esc-created" "au-9"
      ⟨"esc-created", "buyer-1", "seller-1", 100, "created"⟩ (by decide) (by decide) (by decide)
  · exact b3 dbFix authSeller "esc-shipped" "au-9" ⟨"seller-1", "seller", "verified"⟩
      ⟨"esc-shipped", "buyer-1", "seller-1", 100, "shipped"⟩ (by decide) (by decide) (by decide)
      (by decide) (by decide) (by decide)
  · exact b4 dbFix authBuyer "esc-created" "au-9"
      ⟨"esc-created", "buyer-1", "seller-1", 100, "created"⟩ (by decide) (by decide) (by decide)
  · exact b5 dbFix authBuyer "esc-created" "au-9"
      ⟨"esc-created", "buyer-1", "seller-1", 100, "created"⟩ (by decide) (by decide) (by decide)
      (by decide)
  · exact b6 dbFix authAdmin "esc-created" "po-9" "au-9"
      ⟨"esc-created", "buyer-1", "seller-1", 100, "created"⟩ (by decide) (by decide) (by decide)
  · exact b7 dbFix authAdmin "esc-created" "po-9" "au-9"
      ⟨"esc-created", "buyer-1", "seller-1", 100, "created"⟩ (by decide) (by decide) (by decide)
  · exact b8 dbFix authBuyer "esc-funded" "po-9" ⟨"buyer-1", "buyer", "verified"⟩
      ⟨"esc-funded", "buyer-1", "seller-1", 100, "funded"⟩ (by decide) (by decide) (by decide)
      (by decide) (by decide)
  · exact b9 dbFix authAdmin "esc-funded" "po-9" "au-9"
      ⟨"esc-funded", "buyer-1", "seller-1", 100, "funded"⟩ (by decide) (by decide) (by decide)
      (by decide)
  · exact b10 dbFix authAdmin "esc-funded" "po-9" "au-9"
      ⟨"esc-funded", "buyer-1", "seller-1", 100, "funded"⟩ (by decide) (by decide) (by decide)
      (by decide)
  · exact b11 dbFix authAdmin "esc-funded" "au-9"
      ⟨"esc-funded", "buyer-1", "seller-1", 100, "funded"⟩ (by decide) (by decide) (by decide)
  · exact b12 dbFix authBuyer "esc-funded" "au-9"
      ⟨"esc-funded", "buyer-1", "seller-1", 100, "funded"⟩ (by decide) (Or.inl (by decide))
      (by decide)

/-! Helper lemmas for the seller KYC gates of claim C2. -/

theorem adminReleaseEscrow_kycGate (db : DB) (u : Auth) (eid pid aid : String) (e : Escrow)
    (hrole : u.role = "admin") (hfe : findEscrow db eid = some e)
    (hst : e.status = "confirmed") (hmiss : sellerKycMissing db e.seller_id = true) :
    (adminReleaseEscrow db u eid pid aid).1.status = 403 ∧
      (adminReleaseEscrow db u eid pid aid).2 = db := by
  cases hfu : findUser db e.seller_id with
  | none => simp [adminReleaseEscrow, hrole, hfe, hst, hfu]
  | some s =>
    have hk : s.kyc_status ≠ "verified" := by simpa [sellerKycMissing, hfu] using hmiss
    simp [adminReleaseEscrow, hrole, hfe, hst, hfu, hk]

theorem releaseEscrowAdminKyc_kycGate (db : DB) (u : Auth) (eid pid aid : String) (e : Escrow)
    (hrole : u.role = "admin") (hfe : findEscrow db eid = some e)
    (hst : e.status = "confirmed") (hmiss : sellerKycMissing db e.seller_id = true) :
    (releaseEscrowAdminKyc db u eid pid aid).1.status = 403 ∧
      (releaseEscrowAdminKyc db u eid pid aid).2 = db := by
  cases hfu : findUser db e.seller_id with
  | none => simp [releaseEscrowAdminKyc, hrole, hfe, hst, hfu]
  | some s =>
    have hk : s.kyc_status ≠ "verified" := by simpa [sellerKycMissing, hfu] using hmiss
    simp [releaseEscrowAdminKyc, hrole, hfe, hst, hfu, hk]

theorem resolveDispute_kycGate (db : DB) (u : Auth) (did pid aid : String) (d : Dispute) (e : Escrow)
    (hrole : u.role = "admin") (hd : findDispute db did = some d)
    (he : findEscrow db d.escrow_id = some e) (hopen : d.status = "open")
    (hmiss : sellerKycMissing db e.seller_id = true) :
    (resolveDispute db u did "favor_seller" pid aid).1.status = 403 ∧
      (resolveDispute db u did "favor_seller" pid aid).2 = db := by
  cases hfu : findUser db e.seller_id with
  | none => simp [resolveDispute, hrole, hd, he, hopen, hfu]
  | some s =>
    have hk : s.kyc_status ≠ "verified" := by simpa [sellerKycMissing, hfu] using hmiss
    simp [resolveDispute, hrole, hd, he, hopen, hfu, hk]

theorem releaseEscrowBuyer_callerGate (db : DB) (u : Auth) (eid pid : String) (c : UserRow)
    (hfu : findUser db u.id = some c) (hkyc : c.kyc_status ≠ "verified") :
    (releaseEscrowBuyer db u eid pid).1.status = 403 ∧ (releaseEscrowBuyer db u eid pid).2 = db := by
  simp [releaseEscrowBuyer, hfu, hkyc]

/-- Claim C2, amended.  The two admin release handlers and favor_seller
dispute resolution do gate on the seller KYC: with the escrow in the state
they release from (confirmed escrow, resp. open dispute) and the seller row
missing or unverified they answer 403 and leave the database (hence payouts
and escrow status) unchanged.  The buyer-variant release, in contrast, gates
only on the calling buyer kyc_status through the requireKYCVerified
middleware and never consults the seller one; and outside the confirmed
state the admin handlers answer 400 (or the idempotent 200) before ever
reaching the KYC check, so the original regardless-of-status 403 is wrong
on both counts (see the counterexample). -/
theorem claim_C2_seller_kyc_gate :
    (∀ (db : DB) (u : Auth) (eid pid aid : String) (e : Escrow),
      u.role = "admin" → findEscrow db eid = some e → e.status = "confirmed" →
      sellerKycMissing db e.seller_id = true →
      (adminReleaseEscrow db u eid pid aid).1.status = 403 ∧
        (adminReleaseEscrow db u eid pid aid).2 = db) ∧
    (∀ (db : DB) (u : Auth) (eid pid aid : String) (e : Escrow),
      u.role = "admin" → findEscrow db eid = some e → e.status = "confirmed" →
      sellerKycMissing db e.seller_id = true →
      (releaseEscrowAdminKyc db u eid pid aid).1.status = 403 ∧
        (releaseEscrowAdminKyc db u eid pid aid).2 = db) ∧
    (∀ (db : DB) (u : Auth) (did pid aid : String) (d : Dispute) (e : Escrow),
      u.role = "admin" → findDispute db did = some d → findEscrow db d.escrow_id = some e →
      d.status = "open" → sellerKycMissing db e.seller_id = true →
      (resolveDispute db u did "favor_seller" pid aid).1.status = 403 ∧
        (resolveDispute db u did "favor_seller" pid aid).2 = db) ∧
    (∀ (db : DB) (u : Auth) (eid pid : String) (c : UserRow),
      findUser db u.id = some c → c.kyc_status ≠ "verified" →
      (releaseEscrowBuyer db u eid pid).1.status = 403 ∧
        (releaseEscrowBuyer db u eid pid).2 = db) :=
  ⟨adminReleaseEscrow_kycGate, releaseEscrowAdminKyc_kycGate, resolveDispute_kycGate,
    releaseEscrowBuyer_callerGate⟩

/-- Counterexample for C2 as stated: the buyer-variant release on the
confirmed escrow esc-confirmed-unv, whose seller seller-2 is still pending,
answers HTTP 200, inserts a payout row, and moves the escrow to released
(the middleware only checked the calling buyer); moreover the admin release
on a created escrow of the same unverified seller answers 400, not 403. -/
theorem claim_C2_counterexample :
    findUser dbFix "seller-2" = some ⟨"seller-2", "seller", "pending"⟩ ∧
    findEscrow dbFix "esc-confirmed-unv"
      = some ⟨"esc-confirmed-unv", "buyer-1", "seller-2", 100, "confirmed"⟩ ∧
    (releaseEscrowBuyer dbFix authBuyer "esc-confirmed-unv" "pay-cx").1.status = 200 ∧
    (releaseEscrowBuyer dbFix authBuyer "esc-confirmed-unv" "pay-cx").2.payouts
      = [⟨"pay-cx", "esc-confirmed-unv", "pending"⟩] ∧
    statusOf (releaseEscrowBuyer dbFix authBuyer "esc-confirmed-unv" "pay-cx").2 "esc-confirmed-unv"
      = some "released" ∧
    (adminReleaseEscrow dbFix authAdmin "esc-created-unv" "po-9" "au-9").1.status = 400 := by
  decide

/-- Witness for C2: the four gates evaluated on the fixture. -/
theorem claim_C2_witness :
    ((adminReleaseEscrow dbFix authAdmin "esc-confirmed-unv" "po-9" "au-9").1.status = 403 ∧
      (adminReleaseEscrow dbFix authAdmin "esc-confirmed-unv" "po-9" "au-9").2 = dbFix) ∧
    ((releaseEscrowAdminKyc dbFix authAdmin "esc-confirmed-unv" "po-9" "au-9").1.status = 403 ∧
      (releaseEscrowAdminKyc dbFix authAdmin "esc-confirmed-unv" "po-9" "au-9").2 = dbFix) ∧
    ((resolveDispute dbFix authAdmin "disp-open-unv" "favor_seller" "po-9" "au-9").1.status = 403 ∧
      (resolveDispute dbFix authAdmin "disp-open-unv" "favor_seller" "po-9" "au-9").2 = dbFix) ∧
    ((releaseEscrowBuyer dbFix authBuyer2 "esc-created" "po-9").1.status = 403 ∧
      (releaseEscrowBuyer dbFix authBuyer2 "esc-created" "po-9").2 = dbFix) := by
  obtain ⟨g1, g2, g3, g4⟩ := claim_C2_seller_kyc_gate
  refine ⟨?_, ?_, ?_, ?_⟩
  · exact g1 dbFix authAdmin "esc-confirmed-unv" "po-9" "au-9"
      ⟨"esc-confirmed-unv", "buyer-1", "seller-2", 100, "confirmed"⟩ (by decide) (by decide)
      (by decide) (by decide)
  · exact g2 dbFix authAdmin "esc-confirmed-unv" "po-9" "au-9"
      ⟨"esc-confirmed-unv", "buyer-1", "seller-2", 100, "confirmed"⟩ (by decide) (by decide)
      (by decide) (by decide)
  · exact g3 dbFix authAdmin "disp-open-unv" "po-9" "au-9"
      ⟨"disp-open-unv", "esc-confirmed-unv", "buyer-1", "open"⟩
      ⟨"esc-confirmed-unv", "buyer-1", "seller-2", 100, "confirmed"⟩ (by decide) (by decide)
      (by decide) (by decide) (by decide)
  · exact g4 dbFix authBuyer2 "esc-created" "po-9" ⟨"buyer-2", "buyer", "pending"⟩ (by decide)
      (by decide)

/-! Helper lemmas for the ship endpoints of claim C3. -/

theorem shipEscrowKyc_wrongRole (db : DB) (u : Auth) (eid aid : String)
    (hrole : u.role ≠ "seller") :
    (shipEscrowKyc db u eid aid).1.status = 403 ∧ (shipEscrowKyc db u eid aid).2 = db := by
  simp [shipEscrowKyc, hrole]

theorem shipEscrowKyc_kycGate (db : DB) (u : Auth) (eid aid : String)
    (hrole : u.role = "seller") (hmiss : sellerKycMissing db u.id = true) :
    (shipEscrowKyc db u eid aid).1.status = 403 ∧ (shipEscrowKyc db u eid aid).2 = db := by
  cases hfu : findUser db u.id with
  | none => simp [shipEscrowKyc, hrole, hfu]
  | some c =>
    have hk : c.kyc_status ≠ "verified" := by simpa [sellerKycMissing, hfu] using hmiss
    simp [shipEscrowKyc, hrole, hfu, hk]

theorem shipEscrowKyc_notOwner (db : DB) (u : Auth) (eid aid : String) (c : UserRow) (e : Escrow)
    (hrole : u.role = "seller") (hfu : findUser db u.id = some c)
    (hkyc : c.kyc_status = "verified") (hfe : findEscrow db eid = some e)
    (hown : e.seller_id ≠ u.id) :
    (shipEscrowKyc db u eid aid).1.status = 403 ∧ (shipEscrowKyc db u eid aid).2 = db := by
  simp [shipEscrowKyc, hrole, hfu, hkyc, hfe, hown]

theorem shipEscrowKyc_success (db : DB) (u : Auth) (eid aid : String) (c : UserRow) (e : Escrow)
    (hrole : u.role = "seller") (hfu : findUser db u.id = some c)
    (hkyc : c.kyc_status = "verified") (hfe : findEscrow db eid = some e)
    (hown : e.seller_id = u.id) (hst : e.status = "funded") :
    (shipEscrowKyc db u eid aid).1.status = 200 ∧
      (shipEscrowKyc db u eid aid).2.escrows = setStatusIn db.escrows eid "shipped" := by
  simp [shipEscrowKyc, hrole, hfu, hkyc, hfe, hown, hst, addAudit, setEscrowStatus]

theorem shipEscrowBasic_wrongRole (db : DB) (u : Auth) (eid aid : String)
    (hrole : u.role ≠ "seller") :
    (shipEscrowBasic db u eid aid).1.status = 403 ∧ (shipEscrowBasic db u eid aid).2 = db := by
  simp [shipEscrowBasic, hrole]

theorem shipEscrowBasic_success (db : DB) (u : Auth) (eid aid : String) (e : Escrow)
    (hrole : u.role = "seller") (hfe : findEscrow db eid = some e) (hst : e.status = "funded") :
    (shipEscrowBasic db u eid aid).1.status = 200 ∧
      (shipEscrowBasic db u eid aid).2.escrows = setStatusIn db.escrows eid "shipped" := by
  simp [shipEscrowBasic, hrole, hfe, hst, addAudit, setEscrowStatus]

/-- Claim C3, amended.  The hardened ship variant behaves as claimed: it
moves a funded escrow to shipped exactly for a role-seller caller who is the
escrow row seller and KYC verified, answering 403 when the role, the caller
KYC, or the ownership check fails, and 400 when the escrow is not funded,
leaving the database unchanged in every rejection.  The other registered
ship variant checks only that the caller role is seller and the escrow is
funded: any seller, regardless of ownership or KYC status, can ship there
(see the counterexample). -/
theorem claim_C3_ship_guards :
    (∀ (db : DB) (u : Auth) (eid aid : String), u.role ≠ "seller" →
      (shipEscrowKyc db u eid aid).1.status = 403 ∧ (shipEscrowKyc db u eid aid).2 = db) ∧
    (∀ (db : DB) (u : Auth) (eid aid : String), u.role = "seller" →
      sellerKycMissing db u.id = true →
      (shipEscrowKyc db u eid aid).1.status = 403 ∧ (shipEscrowKyc db u eid aid).2 = db) ∧
    (∀ (db : DB) (u : Auth) (eid aid : String) (c : UserRow) (e : Escrow),
      u.role = "seller" → findUser db u.id = some c → c.kyc_status = "verified" →
      findEscrow db eid = some e → e.seller_id ≠ u.id →
      (shipEscrowKyc db u eid aid).1.status = 403 ∧ (shipEscrowKyc db u eid aid).2 = db) ∧
    (∀ (db : DB) (u : Auth) (eid aid : String) (c : UserRow) (e : Escrow),
      u.role = "seller" → findUser db u.id = some c → c.kyc_status = "verified" →
      findEscrow db eid = some e → e.seller_id = u.id → e.status ≠ "funded" →
      (shipEscrowKyc db u eid aid).1.status = 400 ∧ (shipEscrowKyc db u eid aid).2 = db) ∧
    (∀ (db : DB) (u : Auth) (eid aid : String) (c : UserRow) (e : Escrow),
      u.role = "seller" → findUser db u.id = some c → c.kyc_status = "verified" →
      findEscrow db eid = some e → e.seller_id = u.id → e.status = "funded" →
      (shipEscrowKyc db u eid aid).1.status = 200 ∧
        (shipEscrowKyc db u eid aid).2.escrows = setStatusIn db.escrows eid "shipped") ∧
    (∀ (db : DB) (u : Auth) (eid aid : String), u.role ≠ "seller" →
      (shipEscrowBasic db u eid aid).1.status = 403 ∧ (shipEscrowBasic db u eid aid).2 = db) ∧
    (∀ (db : DB) (u : Auth) (eid aid : String) (e : Escrow),
      u.role = "seller" → findEscrow db eid = some e → e.status ≠ "funded" →
      (shipEscrowBasic db u eid aid).1.status = 400 ∧ (shipEscrowBasic db u eid aid).2 = db) ∧
    (∀ (db : DB) (u : Auth) (eid aid : String) (e : Escrow),
      u.role = "seller" → findEscrow db eid = some e → e.status = "funded" →
      (shipEscrowBasic db u eid aid).1.status = 200 ∧
        (shipEscrowBasic db u eid aid).2.escrows = setStatusIn db.escrows eid "shipped") :=
  ⟨shipEscrowKyc_wrongRole, shipEscrowKyc_kycGate, shipEscrowKyc_notOwner,
    shipEscrowKyc_wrongState, shipEscrowKyc_success, shipEscrowBasic_wrongRole,
    shipEscrowBasic_wrongState, shipEscrowBasic_success⟩

/-- Counterexample for C3 as stated: seller-2 is KYC-pending and is not the
seller of the funded escrow esc-funded, yet the role-check-only ship variant
answers HTTP 200 and moves the escrow to shipped. -/
theorem claim_C3_counterexample :
    findEscrow dbFix "esc-funded" = some ⟨"esc-funded", "buyer-1", "seller-1", 100, "funded"⟩ ∧
    findUser dbFix "seller-2" = some ⟨"seller-2", "seller", "pending"⟩ ∧
    (shipEscrowBasic dbFix authSeller2 "esc-funded" "au-cx").1.status = 200 ∧
    statusOf (shipEscrowBasic dbFix authSeller2 "esc-funded" "au-cx").2 "esc-funded"
      = some "shipped" := by
  decide

/-- Witness for C3: all guard branches of the two ship variants evaluated on
the fixture. -/
theorem claim_C3_witness :
    ((shipEscrowKyc dbFix authBuyer "esc-funded" "au-9").1.status = 403 ∧
      (shipEscrowKyc dbFix authBuyer "esc-funded" "au-9").2 = dbFix) ∧
    ((shipEscrowKyc dbFix authSeller2 "esc-funded" "au-9").1.status = 403 ∧
      (shipEscrowKyc dbFix authSeller2 "esc-funded" "au-9").2 = dbFix) ∧
    ((shipEscrowKyc dbFix authSeller "esc-confirmed-unv" "au-9").1.status = 403 ∧
      (shipEscrowKyc dbFix authSeller "esc-confirmed-unv" "au-9").2 = dbFix) ∧
    ((shipEscrowKyc dbFix authSeller "esc-created" "au-9").1.status = 400 ∧
      (shipEscrowKyc dbFix authSeller "esc-created" "au-9").2 = dbFix) ∧
    ((shipEscrowKyc dbFix authSeller "esc-funded" "au-9").1.status = 200 ∧
      (shipEscrowKyc dbFix authSeller "esc-funded" "au-9").2.escrows
        = setStatusIn dbFix.escrows "esc-funded" "shipped") ∧
    ((shipEscrowBasic dbFix authBuyer "esc-funded" "au-9").1.status = 403 ∧
      (shipEscrowBasic dbFix authBuyer "esc-funded" "au-9").2 = dbFix) ∧
    ((shipEscrowBasic dbFix authSeller "esc-created" "au-9").1.status = 400 ∧
      (shipEscrowBasic dbFix authSeller "esc-created" "au-9").2 = dbFix) ∧
    ((shipEscrowBasic dbFix authSeller "esc-funded" "au-9").1.status = 200 ∧
      (shipEscrowBasic dbFix authSeller "esc-funded" "au-9").2.escrows
        = setStatusIn dbFix.escrows "esc-funded" "shipped") := by
  obtain ⟨k1, k2, k3, k4, k5, b1, b2, b3⟩ := claim_C3_ship_guards
  refine ⟨?_, ?_, ?_, ?_, ?_, ?_, ?_, ?_⟩
  · exact k1 dbFix authBuyer "esc-funded" "au-9" (by decide)
  · exact k2 dbFix authSeller2 "esc-funded" "au-9" (by decide) (by decide)
  · exact k3 dbFix authSeller "esc-confirmed-unv" "au-9" ⟨"seller-1", "seller", "verified"⟩
      ⟨"esc-confirmed-unv", "buyer-1", "seller-2", 100, "confirmed"⟩ (by decide) (by decide)
      (by decide) (by decide) (by decide)
  · exact k4 dbFix authSeller "esc-created" "au-9" ⟨"seller-1", "seller", "verified"⟩
      ⟨"esc-created", "buyer-1", "seller-1", 100, "created"⟩ (by decide) (by decide) (by decide)
      (by decide) (by decide) (by decide)
  · exact k5 dbFix authSeller "esc-funded" "au-9" ⟨"seller-1", "seller", "verified"⟩
      ⟨"esc-funded", "buyer-1", "seller-1", 100, "funded"⟩ (by decide) (by decide) (by decide)
      (by decide) (by decide) (by decide)
  · exact b1 dbFix authBuyer "esc-funded" "au-9" (by decide)
  · exact b2 dbFix authSeller "esc-created" "au-9"
      ⟨"esc-created", "buyer-1", "seller-1", 100, "created"⟩ (by decide) (by decide) (by decide)
  · exact b3 dbFix authSeller "esc-funded" "au-9"
      ⟨"esc-funded", "buyer-1", "seller-1", 100, "funded"⟩ (by decide) (by decide) (by decide)

/-! Helper lemmas for claim C4: a successful admin action leaves the target
rows in the state that its own idempotency branch recognises. -/

theorem adminRejectDispute_post (db : DB) (u : Auth) (did aid : String)
    (h : (adminRejectDispute db u did aid).1.status = 200) :
    u.role = "admin" ∧
    ∃ d e, findDispute (adminRejectDispute db u did aid).2 did = some d ∧
      d.status = "rejected" ∧
      findEscrow (adminRejectDispute db u did aid).2 d.escrow_id = some e ∧
      e.status = "completed" := by
  by_cases hrole : u.role = "admin"
  case neg => exfalso; simp [adminRejectDispute, hrole] at h
  case pos =>
    refine ⟨hrole, ?_⟩
    cases hd : findDispute db did with
    | none => exfalso; simp [adminRejectDispute, hrole, hd] at h
    | some d =>
      cases he : findEscrow db d.escrow_id with
      | none => exfalso; simp [adminRejectDispute, hrole, hd, he] at h
      | some e =>
        by_cases hidem : d.status = "rejected" ∧ e.status = "completed"
        · have hres : (adminRejectDispute db u did aid).2 = db := by
            simp [adminRejectDispute, hrole, hd, he, hidem]
          rw [hres]
          exact ⟨d, e, hd, hidem.1, he, hidem.2⟩
        · have hdl : (adminRejectDispute db u did aid).2.disputes
              = setDisputeStatusIn db.disputes did "rejected" := by
            simp [adminRejectDispute, hrole, hd, he, hidem, addAudit, setDisputeStatus,
              setEscrowStatus]
          have hel : (adminRejectDispute db u did aid).2.escrows
              = setStatusIn db.escrows d.escrow_id "completed" := by
            simp [adminRejectDispute, hrole, hd, he, hidem, addAudit, setDisputeStatus,
              setEscrowStatus]
          refine ⟨{ d with status := "rejected" }, { e with status := "completed" }, ?_, rfl, ?_, rfl⟩
          · show findDisputeIn (adminRejectDispute db u did aid).2.disputes did = _
            rw [hdl]
            exact findDisputeIn_set_self db.disputes did "rejected" d hd
          · show findEscrowIn (adminRejectDispute db u did aid).2.escrows d.escrow_id = _
            rw [hel]
            exact findEscrowIn_setStatusIn_self db.escrows d.escrow_id "completed" e he

theorem adminRejectDispute_idem (db : DB) (u : Auth) (did aid : String) (d : Dispute) (e : Escrow)
    (hrole : u.role = "admin") (hd : findDispute db did = some d) (hds : d.status = "rejected")
    (he : findEscrow db d.escrow_id = some e) (hes : e.status = "completed") :
    adminRejectDispute db u did aid
      = ({ status := 200, msg := "Dispute already rejected and escrow completed" }, db) := by
  simp [adminRejectDispute, hrole, hd, he, hds, hes]

theorem adminApproveDispute_post (db : DB) (u : Auth) (did aid : String)
    (h : (adminApproveDispute db u did aid).1.status = 200) :
    u.role = "admin" ∧
    ∃ d e, findDispute (adminApproveDispute db u did aid).2 did = some d ∧
      d.status = "resolved" ∧
      findEscrow (adminApproveDispute db u did aid).2 d.escrow_id = some e ∧
      e.status = "cancelled" := by
  by_cases hrole : u.role = "admin"
  case neg => exfalso; simp [adminApproveDispute, hrole] at h
  case pos =>
    refine ⟨hrole, ?_⟩
    cases hd : findDispute db did with
    | none => exfalso; simp [adminApproveDispute, hrole, hd] at h
    | some d =>
      cases he : findEscrow db d.escrow_id with
      | none => exfalso; simp [adminApproveDispute, hrole, hd, he] at h
      | some e =>
        by_cases hidem : d.status = "resolved" ∧ e.status = "cancelled"
        · have hres : (adminApproveDispute db u did aid).2 = db := by
            simp [adminApproveDispute, hrole, hd, he, hidem]
          rw [hres]
          exact ⟨d, e, hd, hidem.1, he, hidem.2⟩
        · have hdl : (adminApproveDispute db u did aid).2.disputes
              = setDisputeStatusIn db.disputes did "resolved" := by
            simp [adminApproveDispute, hrole, hd, he, hidem, addAudit, setDisputeStatus,
              setEscrowStatus]
          have hel : (adminApproveDispute db u did aid).2.escrows
              = setStatusIn db.escrows d.escrow_id "cancelled" := by
            simp [adminApproveDispute, hrole, hd, he, hidem, addAudit, setDisputeStatus,
              setEscrowStatus]
          refine ⟨{ d with status := "resolved" }, { e with status := "cancelled" }, ?_, rfl, ?_, rfl⟩
          · show findDisputeIn (adminApproveDispute db u did aid).2.disputes did = _
            rw [hdl]
            exact findDisputeIn_set_self db.disputes did "resolved" d hd
          · show findEscrowIn (adminApproveDispute db u did aid).2.escrows d.escrow_id = _
            rw [hel]
            exact findEscrowIn_setStatusIn_self db.escrows d.escrow_id "cancelled" e he

theorem adminApproveDispute_idem (db : DB) (u : Auth) (did aid : String) (d : Dispute) (e : Escrow)
    (hrole : u.role = "admin") (hd : findDispute db did = some d) (hds : d.status = "resolved")
    (he : findEscrow db d.escrow_id = some e) (hes : e.status = "cancelled") :
    adminApproveDispute db u did aid
      = ({ status := 200, msg := "Dispute already approved and escrow cancelled" }, db) := by
  simp [adminApproveDispute, hrole, hd, he, hds, hes]

theorem adminReleaseEscrow_post (db : DB) (u : Auth) (eid pid aid : String)
    (h : (adminReleaseEscrow db u eid pid aid).1.status = 200) :
    u.role = "admin" ∧
    ∃ e, findEscrow (adminReleaseEscrow db u eid pid aid).2 eid = some e ∧
      e.status = "released" := by
  by_cases hrole : u.role = "admin"
  case neg => exfalso; simp [adminReleaseEscrow, hrole] at h
  case pos =>
    refine ⟨hrole, ?_⟩
    cases hfe : findEscrow db eid with
    | none => exfalso; simp [adminReleaseEscrow, hrole, hfe] at h
    | some e =>
      by_cases h2 : e.status = "released"
      · have hres : (adminReleaseEscrow db u eid pid aid).2 = db := by
          simp [adminReleaseEscrow, hrole, hfe, h2]
        rw [hres]
        exact ⟨e, hfe, h2⟩
      · by_cases h3 : e.status ≠ "confirmed"
        · exfalso; simp [adminReleaseEscrow, hrole, hfe, h2, h3] at h
        · cases hfu : findUser db e.seller_id with
          | none => exfalso; simp [adminReleaseEscrow, hrole, hfe, h2, h3, hfu] at h
          | some s =>
            by_cases h4 : s.kyc_status ≠ "verified"
            · exfalso; simp [adminReleaseEscrow, hrole, hfe, h2, h3, hfu, h4] at h
            · have hesc : (adminReleaseEscrow db u eid pid aid).2.escrows
                  = setStatusIn db.escrows eid "released" := by
                simp [adminReleaseEscrow, hrole, hfe, h2, h3, hfu, h4, addAudit, setEscrowStatus]
              refine ⟨{ e with status := "released" }, ?_, rfl⟩
              show findEscrowIn (adminReleaseEscrow db u eid pid aid).2.escrows eid = _
              rw [hesc]
              exact findEscrowIn_setStatusIn_self db.escrows eid "released" e hfe

theorem adminReleaseEscrow_idem (db : DB) (u : Auth) (eid pid aid : String) (e : Escrow)
    (hrole : u.role = "admin") (hfe : findEscrow db eid = some e) (hst : e.status = "released") :
    adminReleaseEscrow db u eid pid aid
      = ({ status := 200, msg := "Escrow already released" }, db) := by
  simp [adminReleaseEscrow, hrole, hfe, hst]

theorem adminCompleteEscrow_post (db : DB) (u : Auth) (eid pa aid : String)
    (h : (adminCompleteEscrow db u eid pa aid).1.status = 200) :
    u.role = "admin" ∧
    ∃ e, findEscrow (adminCompleteEscrow db u eid pa aid).2 eid = some e ∧
      e.status = "completed" := by
  by_cases hrole : u.role = "admin"
  case neg => exfalso; simp [adminCompleteEscrow, hrole] at h
  case pos =>
    refine ⟨hrole, ?_⟩
    cases hfe : findEscrow db eid with
    | none => exfalso; simp [adminCompleteEscrow, hrole, hfe] at h
    | some e =>
      by_cases h2 : e.status = "completed"
      · have hres : (adminCompleteEscrow db u eid pa aid).2 = db := by
          simp [adminCompleteEscrow, hrole, hfe, h2]
        rw [hres]
        exact ⟨e, hfe, h2⟩
      · by_cases h3 : e.status ≠ "released"
        · exfalso; simp [adminCompleteEscrow, hrole, hfe, h2, h3] at h
        · have hesc : (adminCompleteEscrow db u eid pa aid).2.escrows
              = setStatusIn db.escrows eid "completed" := by
            simp only [adminCompleteEscrow, hrole, if_neg (by simp : ¬("admin" : String) ≠ "admin"),
              hfe, if_neg h2]
            split
            · rename_i hcon
              exact absurd hcon h3
            · split
              · split <;> rfl
              · rfl
          refine ⟨{ e with status := "completed" }, ?_, rfl⟩
          show findEscrowIn (adminCompleteEscrow db u eid pa aid).2.escrows eid = _
          rw [hesc]
          exact findEscrowIn_setStatusIn_self db.escrows eid "completed" e hfe

theorem adminCompleteEscrow_idem (db : DB) (u : Auth) (eid pa aid : String) (e : Escrow)
    (hrole : u.role = "admin") (hfe : findEscrow db eid = some e) (hst : e.status = "completed") :
    adminCompleteEscrow db u eid pa aid
      = ({ status := 200, msg := "Escrow already completed" }, db) := by
  simp [adminCompleteEscrow, hrole, hfe, hst]

/-- Claim C4.  Each of the four admin endpoints — dispute reject, dispute
approve, escrow release, escrow complete — invoked a second time right after
a successful (HTTP 200) invocation answers 200 again and returns the exact
same database: the second call performs no further mutation of dispute,
escrow or payout state. -/
theorem claim_C4_admin_idempotency :
    (∀ (db : DB) (u : Auth) (did a1 a2 : String),
      (adminRejectDispute db u did a1).1.status = 200 →
      (adminRejectDispute (adminRejectDispute db u did a1).2 u did a2).1.status = 200 ∧
      (adminRejectDispute (adminRejectDispute db u did a1).2 u did a2).2
        = (adminRejectDispute db u did a1).2) ∧
    (∀ (db : DB) (u : Auth) (did a1 a2 : String),
      (adminApproveDispute db u did a1).1.status = 200 →
      (adminApproveDispute (adminApproveDispute db u did a1).2 u did a2).1.status = 200 ∧
      (adminApproveDispute (adminApproveDispute db u did a1).2 u did a2).2
        = (adminApproveDispute db u did a1).2) ∧
    (∀ (db : DB) (u : Auth) (eid p1 a1 p2 a2 : String),
      (adminReleaseEscrow db u eid p1 a1).1.status = 200 →
      (adminReleaseEscrow (adminReleaseEscrow db u eid p1 a1).2 u eid p2 a2).1.status = 200 ∧
      (adminReleaseEscrow (adminReleaseEscrow db u eid p1 a1).2 u eid p2 a2).2
        = (adminReleaseEscrow db u eid p1 a1).2) ∧
    (∀ (db : DB) (u : Auth) (eid p1 a1 p2 a2 : String),
      (adminCompleteEscrow db u eid p1 a1).1.status = 200 →
      (adminCompleteEscrow (adminCompleteEscrow db u eid p1 a1).2 u eid p2 a2).1.status = 200 ∧
      (adminCompleteEscrow (adminCompleteEscrow db u eid p1 a1).2 u eid p2 a2).2
        = (adminCompleteEscrow db u eid p1 a1).2) := by
  refine ⟨?_, ?_, ?_, ?_⟩
  · intro db u did a1 a2 h
    obtain ⟨hrole, d, e, hd, hds, he, hes⟩ := adminRejectDispute_post db u did a1 h
    have h2 := adminRejectDispute_idem _ u did a2 d e hrole hd hds he hes
    rw [h2]
    exact ⟨rfl, rfl⟩
  · intro db u did a1 a2 h
    obtain ⟨hrole, d, e, hd, hds, he, hes⟩ := adminApproveDispute_post db u did a1 h
    have h2 := adminApproveDispute_idem _ u did a2 d e hrole hd hds he hes
    rw [h2]
    exact ⟨rfl, rfl⟩
  · intro db u eid p1 a1 p2 a2 h
    obtain ⟨hrole, e, hfe, hst⟩ := adminReleaseEscrow_post db u eid p1 a1 h
    have h2 := adminReleaseEscrow_idem _ u eid p2 a2 e hrole hfe hst
    rw [h2]
    exact ⟨rfl, rfl⟩
  · intro db u eid p1 a1 p2 a2 h
    obtain ⟨hrole, e, hfe, hst⟩ := adminCompleteEscrow_post db u eid p1 a1 h
    have h2 := adminCompleteEscrow_idem _ u eid p2 a2 e hrole hfe hst
    rw [h2]
    exact ⟨rfl, rfl⟩

/-- Witness for C4: the four endpoints run twice on the fixture; the first
calls succeed and the second calls answer 200 without further mutation. -/
theorem claim_C4_witness :
    ((adminRejectDispute (adminRejectDispute dbFix authAdmin "disp-open" "a1").2
        authAdmin "disp-open" "a2").1.status = 200 ∧
      (adminRejectDispute (adminRejectDispute dbFix authAdmin "disp-open" "a1").2
        authAdmin "disp-open" "a2").2 = (adminRejectDispute dbFix authAdmin "disp-open" "a1").2) ∧
    ((adminApproveDispute (adminApproveDispute dbFix authAdmin "disp-open" "a1").2
        authAdmin "disp-open" "a2").1.status = 200 ∧
      (adminApproveDispute (adminApproveDispute dbFix authAdmin "disp-open" "a1").2
        authAdmin "disp-open" "a2").2 = (adminApproveDispute dbFix authAdmin "disp-open" "a1").2) ∧
    ((adminReleaseEscrow (adminReleaseEscrow dbFix authAdmin "esc-confirmed" "p1" "a1").2
        authAdmin "esc-confirmed" "p2" "a2").1.status = 200 ∧
      (adminReleaseEscrow (adminReleaseEscrow dbFix authAdmin "esc-confirmed" "p1" "a1").2
        authAdmin "esc-confirmed" "p2" "a2").2
        = (adminReleaseEscrow dbFix authAdmin "esc-confirmed" "p1" "a1").2) ∧
    ((adminCompleteEscrow (adminCompleteEscrow dbFix authAdmin "esc-released" "p1" "a1").2
        authAdmin "esc-released" "p2" "a2").1.status = 200 ∧
      (adminCompleteEscrow (adminCompleteEscrow dbFix authAdmin "esc-released" "p1" "a1").2
        authAdmin "esc-released" "p2" "a2").2
        = (adminCompleteEscrow dbFix authAdmin "esc-released" "p1" "a1").2) := by
  obtain ⟨i1, i2, i3, i4⟩ := claim_C4_admin_idempotency
  refine ⟨?_, ?_, ?_, ?_⟩
  · exact i1 dbFix authAdmin "disp-open" "a1" "a2" (by decide)
  · exact i2 dbFix authAdmin "disp-open" "a1" "a2" (by decide)
  · exact i3 dbFix authAdmin "esc-confirmed" "p1" "a1" "p2" "a2" (by decide)
  · exact i4 dbFix authAdmin "esc-released" "p1" "a1" "p2" "a2" (by decide)

/-! Helper lemmas for dispute resolution (claims C5 and C6). -/

theorem resolveDispute_favorSeller_success (db : DB) (u : Auth) (did pid aid : String)
    (d : Dispute) (e : Escrow) (s : UserRow)
    (hrole : u.role = "admin") (hd : findDispute db did = some d)
    (he : findEscrow db d.escrow_id = some e) (hopen : d.status = "open")
    (hfu : findUser db e.seller_id = some s) (hkyc : s.kyc_status = "verified") :
    (resolveDispute db u did "favor_seller" pid aid).1.status = 200 ∧
      statusOf (resolveDispute db u did "favor_seller" pid aid).2 d.escrow_id
        = some "released" ∧
      (resolveDispute db u did "favor_seller" pid aid).2.payouts
        = db.payouts ++ [⟨pid, d.escrow_id, "pending"⟩] ∧
      findDispute (resolveDispute db u did "favor_seller" pid aid).2 did
        = some { d with status := "resolved" } := by
  have hesc : (resolveDispute db u did "favor_seller" pid aid).2.escrows
      = setStatusIn db.escrows d.escrow_id "released" := by
    simp [resolveDispute, hrole, hd, he, hopen, hfu, hkyc, addAudit, setDisputeStatus,
      setEscrowStatus]
  have hdisp : (resolveDispute db u did "favor_seller" pid aid).2.disputes
      = setDisputeStatusIn db.disputes did "resolved" := by
    simp [resolveDispute, hrole, hd, he, hopen, hfu, hkyc, addAudit, setDisputeStatus,
      setEscrowStatus]
  refine ⟨?_, ?_, ?_, ?_⟩
  · simp [resolveDispute, hrole, hd, he, hopen, hfu, hkyc]
  · show (findEscrowIn (resolveDispute db u did "favor_seller" pid aid).2.escrows
        d.escrow_id).map (fun x => x.status) = some "released"
    rw [hesc, findEscrowIn_setStatusIn_self db.escrows d.escrow_id "released" e he]
    rfl
  · simp [resolveDispute, hrole, hd, he, hopen, hfu, hkyc, addAudit, setDisputeStatus,
      setEscrowStatus]
  · show findDisputeIn (resolveDispute db u did "favor_seller" pid aid).2.disputes did = _
    rw [hdisp]
    exact findDisputeIn_set_self db.disputes did "resolved" d hd

theorem resolveDispute_notOpen (db : DB) (u : Auth) (did decision pid aid : String)
    (d : Dispute) (e : Escrow)
    (hrole : u.role = "admin")
    (hdec : decision = "favor_buyer" ∨ decision = "favor_seller" ∨ decision = "rejected")
    (hd : findDispute db did = some d) (he : findEscrow db d.escrow_id = some e)
    (hopen : d.status ≠ "open") :
    (resolveDispute db u did decision pid aid).1.status = 400 ∧
      (resolveDispute db u did decision pid aid).2 = db := by
  have hdec2 : ¬(decision ≠ "favor_buyer" ∧ decision ≠ "favor_seller" ∧ decision ≠ "rejected") := by
    rcases hdec with h | h | h <;> simp [h]
  simp [resolveDispute, hrole, hdec2, hd, he, hopen]

/-- Claim C5.  Resolving an open dispute with decision favor_seller (admin
caller, seller KYC verified) answers 200, sets the underlying escrow to
released, appends exactly one new pending payout row for that escrow, and
marks the dispute resolved; with the dispute not open the request answers
400 and the database is untouched. -/
theorem claim_C5_favor_seller :
    (∀ (db : DB) (u : Auth) (did pid aid : String) (d : Dispute) (e : Escrow) (s : UserRow),
      u.role = "admin" → findDispute db did = some d → findEscrow db d.escrow_id = some e →
      d.status = "open" → findUser db e.seller_id = some s → s.kyc_status = "verified" →
      (resolveDispute db u did "favor_seller" pid aid).1.status = 200 ∧
        statusOf (resolveDispute db u did "favor_seller" pid aid).2 d.escrow_id
          = some "released" ∧
        (resolveDispute db u did "favor_seller" pid aid).2.payouts
          = db.payouts ++ [⟨pid, d.escrow_id, "pending"⟩] ∧
        findDispute (resolveDispute db u did "favor_seller" pid aid).2 did
          = some { d with status := "resolved" }) ∧
    (∀ (db : DB) (u : Auth) (did decision pid aid : String) (d : Dispute) (e : Escrow),
      u.role = "admin" →
      (decision = "favor_buyer" ∨ decision = "favor_seller" ∨ decision = "rejected") →
      findDispute db did = some d → findEscrow db d.escrow_id = some e → d.status ≠ "open" →
      (resolveDispute db u did decision pid aid).1.status = 400 ∧
        (resolveDispute db u did decision pid aid).2 = db) :=
  ⟨resolveDispute_favorSeller_success, resolveDispute_notOpen⟩

/-- Witness for C5: favor_seller on the open dispute of the shipped escrow
with the verified seller, and a rejected replay on the resolved dispute. -/
theorem claim_C5_witness :
    ((resolveDispute dbFix authAdmin "disp-open" "favor_seller" "po-5" "au-5").1.status = 200 ∧
      statusOf (resolveDispute dbFix authAdmin "disp-open" "favor_seller" "po-5" "au-5").2
        "esc-shipped" = some "released" ∧
      (resolveDispute dbFix authAdmin "disp-open" "favor_seller" "po-5" "au-5").2.payouts
        = dbFix.payouts ++ [⟨"po-5", "esc-shipped", "pending"⟩] ∧
      findDispute (resolveDispute dbFix authAdmin "disp-open" "favor_seller" "po-5" "au-5").2
        "disp-open" = some ⟨"disp-open", "esc-shipped", "buyer-1", "resolved"⟩) ∧
    ((resolveDispute dbFix authAdmin "disp-resolved" "favor_buyer" "po-5" "au-5").1.status = 400 ∧
      (resolveDispute dbFix authAdmin "disp-resolved" "favor_buyer" "po-5" "au-5").2 = dbFix) := by
  obtain ⟨hsucc, hbad⟩ := claim_C5_favor_seller
  refine ⟨?_, ?_⟩
  · exact hsucc dbFix authAdmin "disp-open" "po-5" "au-5"
      ⟨"disp-open", "esc-shipped", "buyer-1", "open"⟩
      ⟨"esc-shipped", "buyer-1", "seller-1", 100, "shipped"⟩
      ⟨"seller-1", "seller", "verified"⟩ (by decide) (by decide) (by decide) (by decide)
      (by decide) (by decide)
  · exact hbad dbFix authAdmin "disp-resolved" "favor_buyer" "po-5" "au-5"
      ⟨"disp-resolved", "esc-shipped", "buyer-1", "resolved"⟩
      ⟨"esc-shipped", "buyer-1", "seller-1", 100, "shipped"⟩ (by decide) (Or.inl (by decide))
      (by decide) (by decide) (by decide)

/-- Claim C6.  Resolving an open dispute with decision favor_buyer answers
200, marks the dispute resolved, and leaves the escrow rows and the payouts
table entirely unchanged. -/
theorem claim_C6_favor_buyer_frame :
    ∀ (db : DB) (u : Auth) (did pid aid : String) (d : Dispute) (e : Escrow),
      u.role = "admin" → findDispute db did = some d → findEscrow db d.escrow_id = some e →
      d.status = "open" →
      (resolveDispute db u did "favor_buyer" pid aid).1.status = 200 ∧
        (resolveDispute db u did "favor_buyer" pid aid).2.escrows = db.escrows ∧
        (resolveDispute db u did "favor_buyer" pid aid).2.payouts = db.payouts ∧
        findDispute (resolveDispute db u did "favor_buyer" pid aid).2 did
          = some { d with status := "resolved" } := by
  intro db u did pid aid d e hrole hd he hopen
  have hdisp : (resolveDispute db u did "favor_buyer" pid aid).2.disputes
      = setDisputeStatusIn db.disputes did "resolved" := by
    simp [resolveDispute, hrole, hd, he, hopen, addAudit, setDisputeStatus]
  refine ⟨?_, ?_, ?_, ?_⟩
  · simp [resolveDispute, hrole, hd, he, hopen]
  · simp [resolveDispute, hrole, hd, he, hopen, addAudit, setDisputeStatus]
  · simp [resolveDispute, hrole, hd, he, hopen, addAudit, setDisputeStatus]
  · show findDisputeIn (resolveDispute db u did "favor_buyer" pid aid).2.disputes did = _
    rw [hdisp]
    exact findDisputeIn_set_self db.disputes did "resolved" d hd

/-- Witness for C6: favor_buyer on the open dispute of the shipped escrow. -/
theorem claim_C6_witness :
    (resolveDispute dbFix authAdmin "disp-open" "favor_buyer" "po-6" "au-6").1.status = 200 ∧
    (resolveDispute dbFix authAdmin "disp-open" "favor_buyer" "po-6" "au-6").2.escrows
      = dbFix.escrows ∧
    (resolveDispute dbFix authAdmin "disp-open" "favor_buyer" "po-6" "au-6").2.payouts
      = dbFix.payouts ∧
    findDispute (resolveDispute dbFix authAdmin "disp-open" "favor_buyer" "po-6" "au-6").2
      "disp-open" = some ⟨"disp-open", "esc-shipped", "buyer-1", "resolved"⟩ :=
  claim_C6_favor_buyer_frame dbFix authAdmin "disp-open" "po-6" "au-6"
    ⟨"disp-open", "esc-shipped", "buyer-1", "open"⟩
    ⟨"esc-shipped", "buyer-1", "seller-1", 100, "shipped"⟩ (by decide) (by decide) (by decide)
    (by decide)

/-! Helper lemmas for the payments webhook (claim C7). -/

theorem findIntentByRef_setEvents (db : DB) (l : List WebhookEvent) (r : String) :
    findIntentByRef { db with events := l } r = findIntentByRef db r := rfl

theorem webhookPayments_noSig (db : DB) (et : String) (pr : Option String) (eid : String) :
    webhookPayments db false et pr eid = ({ status := 400, msg := "Missing signature" }, db) := by
  simp [webhookPayments]

theorem webhookPayments_already (db : DB) (et : String) (pr : Option String) (eid : String)
    (w : WebhookEvent) (hw : findWebhookEvent db pr et = some w) :
    webhookPayments db true et pr eid
      = ({ status := 200, msg := "Event already processed" }, db) := by
  simp [webhookPayments, hw]

theorem webhookPayments_first (db : DB) (r eid1 : String) (intent : PaymentIntent)
    (hw : findWebhookEvent db (some r) "payment_succeeded" = none)
    (hint : findIntentByRef db r = some intent) :
    (webhookPayments db true "payment_succeeded" (some r) eid1).1.status = 200 ∧
    (webhookPayments db true "payment_succeeded" (some r) eid1).2.escrows
      = setStatusIn db.escrows intent.escrow_id "funded" ∧
    (webhookPayments db true "payment_succeeded" (some r) eid1).2.intents
      = db.intents.map (fun i => if i.id = intent.id then { i with status := "paid" } else i) ∧
    (webhookPayments db true "payment_succeeded" (some r) eid1).2.events
      = (db.events ++ ([⟨eid1, "payment_succeeded", some r, false⟩] : List WebhookEvent)).map
          (fun w : WebhookEvent => if w.id = eid1 then { w with processed := true } else w) := by
  refine ⟨?_, ?_, ?_, ?_⟩ <;>
    simp [webhookPayments, hw, findIntentByRef_setEvents, hint, setIntentPaid, setEscrowStatus,
      setEventProcessed, addAudit]

theorem webhookPayments_second (db : DB) (r eid1 eid2 : String) (intent : PaymentIntent)
    (hw : findWebhookEvent db (some r) "payment_succeeded" = none)
    (hint : findIntentByRef db r = some intent) :
    webhookPayments (webhookPayments db true "payment_succeeded" (some r) eid1).2 true
        "payment_succeeded" (some r) eid2
      = ({ status := 200, msg := "Event already processed" },
          (webhookPayments db true "payment_succeeded" (some r) eid1).2) := by
  obtain ⟨-, -, -, hev⟩ := webhookPayments_first db r eid1 intent hw hint
  have hp : ∀ a : WebhookEvent,
      (optRefEq (if a.id = eid1 then { a with processed := true } else a).pg_ref (some r) &&
        ((if a.id = eid1 then { a with processed := true } else a).event_type
          == "payment_succeeded"))
      = (optRefEq a.pg_ref (some r) && (a.event_type == "payment_succeeded")) := by
    intro a
    by_cases h : a.id = eid1 <;> simp [h]
  have hfind : findWebhookEvent (webhookPayments db true "payment_succeeded" (some r) eid1).2
      (some r) "payment_succeeded"
      = some ⟨eid1, "payment_succeeded", some r, true⟩ := by
    show ((webhookPayments db true "payment_succeeded" (some r) eid1).2.events).find?
        (fun w => optRefEq w.pg_ref (some r) && w.event_type == "payment_succeeded") = _
    rw [hev, find?_map_pred _ _ hp, List.find?_append]
    have h1 : db.events.find?
        (fun w => optRefEq w.pg_ref (some r) && w.event_type == "payment_succeeded") = none := hw
    rw [h1]
    simp [optRefEq]
  exact webhookPayments_already _ _ _ _ _ hfind

/-- Claim C7.  The payments webhook: a request without the x-signature header
answers 400 and stores nothing; a delivery whose (pg_ref, event type) pair
matches an already-stored webhook event answers 200 Event already processed
with no insert or update; and of two sequential deliveries of the same
payment_succeeded event only the first marks the matching intent paid and
forces the escrow to funded, the second answering already-processed with the
database untouched. -/
theorem claim_C7_webhook_idempotency :
    (∀ (db : DB) (et : String) (pr : Option String) (eid : String),
      webhookPayments db false et pr eid = ({ status := 400, msg := "Missing signature" }, db)) ∧
    (∀ (db : DB) (et : String) (pr : Option String) (eid : String) (w : WebhookEvent),
      findWebhookEvent db pr et = some w →
      webhookPayments db true et pr eid
        = ({ status := 200, msg := "Event already processed" }, db)) ∧
    (∀ (db : DB) (r eid1 eid2 : String) (intent : PaymentIntent),
      findWebhookEvent db (some r) "payment_succeeded" = none →
      findIntentByRef db r = some intent →
      (webhookPayments db true "payment_succeeded" (some r) eid1).1.status = 200 ∧
      (webhookPayments db true "payment_succeeded" (some r) eid1).2.escrows
        = setStatusIn db.escrows intent.escrow_id "funded" ∧
      (webhookPayments db true "payment_succeeded" (some r) eid1).2.intents
        = db.intents.map (fun i => if i.id = intent.id then { i with status := "paid" } else i) ∧
      webhookPayments (webhookPayments db true "payment_succeeded" (some r) eid1).2 true
          "payment_succeeded" (some r) eid2
        = ({ status := 200, msg := "Event already processed" },
            (webhookPayments db true "payment_succeeded" (some r) eid1).2)) := by
  refine ⟨webhookPayments_noSig, webhookPayments_already, ?_⟩
  intro db r eid1 eid2 intent hw hint
  obtain ⟨h1, h2, h3, -⟩ := webhookPayments_first db r eid1 intent hw hint
  exact ⟨h1, h2, h3, webhookPayments_second db r eid1 eid2 intent hw hint⟩

/-- Witness for C7: the stored-event fixture answers already-processed, and
the double delivery for ref1 on the base fixture funds the shipped escrow
exactly once. -/
theorem claim_C7_witness :
    (webhookPayments dbFixEvt true "payment_succeeded" (some "ref1") "evt-9"
      = ({ status := 200, msg := "Event already processed" }, dbFixEvt)) ∧
    ((webhookPayments dbFix true "payment_succeeded" (some "ref1") "evt-1").1.status = 200 ∧
      (webhookPayments dbFix true "payment_succeeded" (some "ref1") "evt-1").2.escrows
        = setStatusIn dbFix.escrows "esc-shipped" "funded" ∧
      (webhookPayments dbFix true "payment_succeeded" (some "ref1") "evt-1").2.intents
        = dbFix.intents.map
            (fun i => if i.id = "pi-1" then { i with status := "paid" } else i) ∧
      webhookPayments (webhookPayments dbFix true "payment_succeeded" (some "ref1") "evt-1").2 true
          "payment_succeeded" (some "ref1") "evt-2"
        = ({ status := 200, msg := "Event already processed" },
            (webhookPayments dbFix true "payment_succeeded" (some "ref1") "evt-1").2)) := by
  obtain ⟨-, halready, hseq⟩ := claim_C7_webhook_idempotency
  refine ⟨?_, ?_⟩
  · exact halready dbFixEvt "payment_succeeded" (some "ref1") "evt-9"
      ⟨"evt-0", "payment_succeeded", some "ref1", true⟩ (by decide)
  · exact hseq dbFix "ref1" "evt-1" "evt-2" ⟨"pi-1", "esc-shipped", some "ref1", "pending"⟩
      (by decide) (by decide)

/-! Helper lemmas for dispute opening (claim C8). -/

theorem openDispute_success (db : DB) (u : Auth) (eid reason did aid : String) (e : Escrow)
    (hr : reason ≠ "") (hfe : findEscrow db eid = some e)
    (hparty : u.id = e.buyer_id ∨ u.id = e.seller_id)
    (hact : e.status = "funded" ∨ e.status = "shipped" ∨ e.status = "confirmed") :
    (openDispute db u eid reason did aid).1.status = 201 ∧
      (openDispute db u eid reason did aid).2.disputes
        = db.disputes ++ [⟨did, eid, u.id, "open"⟩] := by
  have hp : ¬(u.id ≠ e.buyer_id ∧ u.id ≠ e.seller_id) := by
    rcases hparty with h | h <;> simp [h]
  have ha : ¬(e.status ≠ "funded" ∧ e.status ≠ "shipped" ∧ e.status ≠ "confirmed") := by
    rcases hact with h | h | h <;> simp [h]
  simp [openDispute, hr, hfe, hp, ha, addAudit]

theorem openDispute_notParty (db : DB) (u : Auth) (eid reason did aid : String) (e : Escrow)
    (hr : reason ≠ "") (hfe : findEscrow db eid = some e)
    (hparty : ¬(u.id = e.buyer_id ∨ u.id = e.seller_id)) :
    (openDispute db u eid reason did aid).1.status = 403 ∧
      (openDispute db u eid reason did aid).2 = db := by
  have hp : u.id ≠ e.buyer_id ∧ u.id ≠ e.seller_id := by
    push_neg at hparty
    exact hparty
  simp [openDispute, hr, hfe, hp]

theorem openDispute_inactive (db : DB) (u : Auth) (eid reason did aid : String) (e : Escrow)
    (hr : reason ≠ "") (hfe : findEscrow db eid = some e)
    (hparty : u.id = e.buyer_id ∨ u.id = e.seller_id)
    (hact : ¬(e.status = "funded" ∨ e.status = "shipped" ∨ e.status = "confirmed")) :
    (openDispute db u eid reason did aid).1.status = 400 ∧
      (openDispute db u eid reason did aid).2 = db := by
  have hp : ¬(u.id ≠ e.buyer_id ∧ u.id ≠ e.seller_id) := by
    rcases hparty with h | h <;> simp [h]
  have ha : e.status ≠ "funded" ∧ e.status ≠ "shipped" ∧ e.status ≠ "confirmed" := by
    push_neg at hact
    exact hact
  simp [openDispute, hr, hfe, hp, ha]

theorem openDispute_escrows (db : DB) (u : Auth) (eid reason did aid : String) :
    (openDispute db u eid reason did aid).2.escrows = db.escrows := by
  by_cases h1 : reason = ""
  · simp [openDispute, h1]
  · cases hfe : findEscrow db eid with
    | none => simp [openDispute, h1, hfe]
    | some e =>
      by_cases h2 : u.id ≠ e.buyer_id ∧ u.id ≠ e.seller_id
      · simp [openDispute, h1, hfe, h2]
      · by_cases h3 : e.status ≠ "funded" ∧ e.status ≠ "shipped" ∧ e.status ≠ "confirmed"
        · simp [openDispute, h1, hfe, h2, h3]
        · simp [openDispute, h1, hfe, h2, h3, addAudit]

/-- Claim C8.  For a dispute-open request carrying a reason and referencing
an existing escrow: it answers 201 and appends a new open dispute row if and
only if the caller is the escrow buyer or seller and the escrow status is
funded, shipped or confirmed; a non-party caller gets 403, a party on an
inactive status gets 400, both leaving the database unchanged; and in every
case (even the rejections and the success) the escrow rows themselves are
untouched. -/
theorem claim_C8_open_dispute :
    (∀ (db : DB) (u : Auth) (eid reason did aid : String) (e : Escrow),
      reason ≠ "" → findEscrow db eid = some e →
      (((openDispute db u eid reason did aid).1.status = 201) ↔
        ((u.id = e.buyer_id ∨ u.id = e.seller_id) ∧
          (e.status = "funded" ∨ e.status = "shipped" ∨ e.status = "confirmed"))) ∧
      (¬(u.id = e.buyer_id ∨ u.id = e.seller_id) →
        (openDispute db u eid reason did aid).1.status = 403 ∧
          (openDispute db u eid reason did aid).2 = db) ∧
      ((u.id = e.buyer_id ∨ u.id = e.seller_id) →
        ¬(e.status = "funded" ∨ e.status = "shipped" ∨ e.status = "confirmed") →
        (openDispute db u eid reason did aid).1.status = 400 ∧
          (openDispute db u eid reason did aid).2 = db) ∧
      ((u.id = e.buyer_id ∨ u.id = e.seller_id) →
        (e.status = "funded" ∨ e.status = "shipped" ∨ e.status = "confirmed") →
        (openDispute db u eid reason did aid).1.status = 201 ∧
          (openDispute db u eid reason did aid).2.disputes
            = db.disputes ++ [⟨did, eid, u.id, "open"⟩])) ∧
    (∀ (db : DB) (u : Auth) (eid reason did aid : String),
      (openDispute db u eid reason did aid).2.escrows = db.escrows) := by
  refine ⟨?_, openDispute_escrows⟩
  intro db u eid reason did aid e hr hfe
  refine ⟨?_, openDispute_notParty db u eid reason did aid e hr hfe,
    openDispute_inactive db u eid reason did aid e hr hfe,
    fun hparty hact => openDispute_success db u eid reason did aid e hr hfe hparty hact⟩
  constructor
  · intro h201
    by_cases hparty : u.id = e.buyer_id ∨ u.id = e.seller_id
    · by_cases hact : e.status = "funded" ∨ e.status = "shipped" ∨ e.status = "confirmed"
      · exact ⟨hparty, hact⟩
      · obtain ⟨h4, -⟩ := openDispute_inactive db u eid reason did aid e hr hfe hparty hact
        exact absurd (h4.symm.trans h201) (by decide)
    · obtain ⟨h4, -⟩ := openDispute_notParty db u eid reason did aid e hr hfe hparty
      exact absurd (h4.symm.trans h201) (by decide)
  · intro ⟨hparty, hact⟩
    exact (openDispute_success db u eid reason did aid e hr hfe hparty hact).1

/-- Witness for C8: the buyer opens a dispute on the shipped escrow (201 and
a new open dispute row); a stranger seller gets 403; the buyer on a created
escrow gets 400; the escrow rows are untouched by the successful open. -/
theorem claim_C8_witness :
    ((openDispute dbFix authBuyer "esc-shipped" "not received" "d9" "a9").1.status = 201 ∧
      (openDispute dbFix authBuyer "esc-shipped" "not received" "d9" "a9").2.disputes
        = dbFix.disputes ++ [⟨"d9", "esc-shipped", "buyer-1", "open"⟩]) ∧
    ((openDispute dbFix authSeller2 "esc-shipped" "hm" "d9" "a9").1.status = 403 ∧
      (openDispute dbFix authSeller2 "esc-shipped" "hm" "d9" "a9").2 = dbFix) ∧
    ((openDispute dbFix authBuyer "esc-created" "hm" "d9" "a9").1.status = 400 ∧
      (openDispute dbFix authBuyer "esc-created" "hm" "d9" "a9").2 = dbFix) ∧
    (openDispute dbFix authBuyer "esc-shipped" "not received" "d9" "a9").2.escrows
      = dbFix.escrows := by
  obtain ⟨hmain, hframe⟩ := claim_C8_open_dispute
  obtain ⟨-, -, -, hsucc⟩ := hmain dbFix authBuyer "esc-shipped" "not received" "d9" "a9"
    ⟨"esc-shipped", "buyer-1", "seller-1", 100, "shipped"⟩ (by decide) (by decide)
  obtain ⟨-, hforb, -, -⟩ := hmain dbFix authSeller2 "esc-shipped" "hm" "d9" "a9"
    ⟨"esc-shipped", "buyer-1", "seller-1", 100, "shipped"⟩ (by decide) (by decide)
  obtain ⟨-, -, hbad, -⟩ := hmain dbFix authBuyer "esc-created" "hm" "d9" "a9"
    ⟨"esc-created", "buyer-1", "seller-1", 100, "created"⟩ (by decide) (by decide)
  exact ⟨hsucc (by decide) (by decide), hforb (by decide), hbad (by decide) (by decide),
    hframe dbFix authBuyer "esc-shipped" "not received" "d9" "a9"⟩

/-- Claim C9.  The body-ids escrow creation endpoint: for any authenticated
caller with role buyer or seller and any non-empty buyer_id, seller_id and
non-zero amount it answers 201 and appends an escrow row with status
created — no lookup of the named users, no distinctness check, and no check
that the caller is one of the two parties (the ids are arbitrary). -/
theorem claim_C9_create_escrow :
    ∀ (db : DB) (u : Auth) (bid sid : String) (amt : Nat) (eid aid : String),
      (u.role = "buyer" ∨ u.role = "seller") → bid ≠ "" → sid ≠ "" → amt ≠ 0 →
      (createEscrow db u bid sid amt eid aid).1.status = 201 ∧
        (createEscrow db u bid sid amt eid aid).2.escrows
          = db.escrows ++ [⟨eid, bid, sid, amt, "created"⟩] := by
  intro db u bid sid amt eid aid hrole hb hs ha
  have hv : ¬(bid = "" ∨ sid = "" ∨ amt = 0) := by simp [hb, hs, ha]
  have hr : ¬(u.role ≠ "buyer" ∧ u.role ≠ "seller") := by
    rcases hrole with h | h <;> simp [h]
  simp [createEscrow, hv, hr, addAudit]

/-- Witness for C9: a buyer creates an escrow naming ghost-1 as both buyer
and seller — an id that exists nowhere in the users table — and still gets
201 with the row inserted. -/
theorem claim_C9_witness :
    (createEscrow dbFix authBuyer "ghost-1" "ghost-1" 5 "esc-9" "au-9").1.status = 201 ∧
    (createEscrow dbFix authBuyer "ghost-1" "ghost-1" 5 "esc-9" "au-9").2.escrows
      = dbFix.escrows ++ [⟨"esc-9", "ghost-1", "ghost-1", 5, "created"⟩] :=
  claim_C9_create_escrow dbFix authBuyer "ghost-1" "ghost-1" 5 "esc-9" "au-9"
    (Or.inl (by decide)) (by decide) (by decide) (by decide)

end Escao
